import Mathlib

/-!
Verification development for the soundcork stereo-group subsystem
(`soundcork/groups.py`, `soundcork/datastore.py`).

The Python code is shallowly embedded:
* Python strings are Lean `String`s; the Python string operations used by the
  code (`strip`, `lstrip`, `in`, `startswith`, `replace(" ", "")`, `upper`)
  are defined below over `String.data`.
* `xml.etree.ElementTree` element trees are the inductive type `Xml`
  (tag, attributes, text, children).  The external XML parser is not modelled:
  wherever the code parses a string coming from outside (request bodies,
  stored files, remote response bodies), the parse outcome is an input of the
  model (`Option Xml`, `none` = `ParseError`), or an abstract
  `parse : String → Option Xml` argument when the code parses inside a helper.
* The per-account group directory is `Store`, an association list from file
  name to `StoredFile` (raw bytes of the file plus its parse outcome);
  `listdir` order is the list order.
* Remote HTTP calls are inputs of type `RemoteOutcome` (`exn` models a raised
  transport exception, `resp` a completed HTTP exchange).
-/

/-! ## Python string operations -/

/-- Characters removed by Python `str.strip` / `str.lstrip`. -/
def lstripL : List Char → List Char
  | [] => []
  | c :: cs => if c.isWhitespace then lstripL cs else c :: cs

/-- Python `str.lstrip()`. -/
def pyLStrip (s : String) : String := String.mk (lstripL s.data)

/-- Python `str.strip()`: drop whitespace at both ends. -/
def pyStrip (s : String) : String :=
  String.mk (((lstripL ((lstripL s.data).reverse)).reverse))

/-- Python `pat in s` (substring test). -/
def pyContains (s pat : String) : Bool := decide (pat.data <:+: s.data)

/-- Python `s.startswith(pat)`. -/
def pyStartsWith (s pat : String) : Bool := decide (pat.data <+: s.data)

/-- Python `s.replace(" ", "")`. -/
def pyRemoveSpaces (s : String) : String := String.mk (s.data.filter (fun c => c ≠ ' '))

/-- Python `s.upper()` (ASCII is all the code uses it for). -/
def pyUpper (s : String) : String := String.mk (s.data.map Char.toUpper)

/-- Python `(x or "").strip() or None` on an optional query parameter. -/
def optStripNone (o : Option String) : Option String :=
  let t := pyStrip (o.getD "")
  if t = "" then none else some t

/-! ## XML element trees (`xml.etree.ElementTree`)

Trees are modelled without inter-element whitespace: elements that carry
children have no own text.  This is the shape of every tree the subsystem
builds itself and of its own persisted files re-parsed (the pretty-printer
`_pretty_xml` writes canonical indentation, which `ET.indent` reproduces
idempotently), so serialization below renders the same bytes `ET.indent` +
`ElementTree.write` produce for them. -/

inductive Xml where
  | elem (tag : String) (attrs : List (String × String)) (text : Option String)
      (children : List Xml)

def Xml.tag : Xml → String
  | .elem t _ _ _ => t

def Xml.attrs : Xml → List (String × String)
  | .elem _ a _ _ => a

def Xml.text : Xml → Option String
  | .elem _ _ tx _ => tx

def Xml.children : Xml → List Xml
  | .elem _ _ _ cs => cs

/-- `Element.find(tag)`: first direct child with the given tag. -/
def Xml.findChild (x : Xml) (t : String) : Option Xml :=
  x.children.find? (fun c => c.tag == t)

/-- `Element.findtext(tag)`: text of the first matching child
(`""` when the child has no text), `none` when there is no such child. -/
def Xml.findtext (x : Xml) (t : String) : Option String :=
  (x.findChild t).map (fun c => c.text.getD "")

/-- `dict.__setitem__` on the attribute dictionary: overwrite in place or
append a fresh key at the end. -/
def setAttrList (k v : String) : List (String × String) → List (String × String)
  | [] => [(k, v)]
  | (k', v') :: rest => if k' == k then (k, v) :: rest else (k', v') :: setAttrList k v rest

/-- `Element.set(k, v)`. -/
def Xml.setAttr (x : Xml) (k v : String) : Xml :=
  match x with
  | .elem t a tx cs => .elem t (setAttrList k v a) tx cs

/-- Direct children with a given tag (one step of an ElementTree path). -/
def childrenTagged (t : String) (x : Xml) : List Xml :=
  x.children.filter (fun c => c.tag == t)

mutual

/-- `root.findall(".//deviceId")` combined with the text comparison
`dev.text == device_id` done by `check_device_grouped`: does any strict
descendant carry tag `deviceId` and exactly this text? -/
def xmlHasDeviceId (d : String) : Xml → Bool
  | .elem tag _ text cs => (tag == "deviceId" && text == some d) || listHasDeviceId d cs

/-- Helper of `xmlHasDeviceId` over a child list. -/
def listHasDeviceId (d : String) : List Xml → Bool
  | [] => false
  | c :: cs => xmlHasDeviceId d c || listHasDeviceId d cs

end

/-- `.//deviceId` never matches the root element itself. -/
def rootHasDeviceId (d : String) (x : Xml) : Bool := listHasDeviceId d x.children

/-! ## Serialization (`ET.tostring` after `ET.indent(root, space="  ")`) -/

/-- XML text escaping done by the ElementTree serializer. -/
def escapeChar (c : Char) : String :=
  if c = '&' then "&amp;"
  else if c = '<' then "&lt;"
  else if c = '>' then "&gt;"
  else String.singleton c

/-- Escaping of element text. -/
def escapeText (s : String) : String := String.join (s.data.map escapeChar)

/-- Escaping of attribute values (quotes additionally). -/
def escapeAttrChar (c : Char) : String :=
  if c = '"' then "&quot;" else escapeChar c

/-- Escaping of attribute values. -/
def escapeAttrVal (s : String) : String := String.join (s.data.map escapeAttrChar)

/-- Rendering of the attribute dictionary: ` k="v"` per entry, in order. -/
def attrsStr (attrs : List (String × String)) : String :=
  String.join (attrs.map (fun kv => " " ++ kv.1 ++ "=\"" ++ escapeAttrVal kv.2 ++ "\""))

/-- Two spaces per indentation level (`ET.indent(…, space="  ")`). -/
def indentStr : Nat → String
  | 0 => ""
  | n + 1 => "  " ++ indentStr n

/-- Newline plus indentation, as inserted by `ET.indent`. -/
def nlIndent (level : Nat) : String := "\n" ++ indentStr level

mutual

/-- One element as written by `ElementTree.write` after `ET.indent`:
childless elements render on one line (self-closing `<t />` when they have
no text), elements with children put each child on its own indented line. -/
def serializeInd (level : Nat) : Xml → String
  | .elem tag attrs none [] => "<" ++ tag ++ attrsStr attrs ++ " />"
  | .elem tag attrs (some t) [] =>
      "<" ++ tag ++ attrsStr attrs ++ ">" ++ escapeText t ++ "</" ++ tag ++ ">"
  | .elem tag attrs _ (c :: cs) =>
      "<" ++ tag ++ attrsStr attrs ++ ">" ++ serializeIndList (level + 1) (c :: cs) ++
        nlIndent level ++ "</" ++ tag ++ ">"

/-- Children, each preceded by a newline and its indentation. -/
def serializeIndList (level : Nat) : List Xml → String
  | [] => ""
  | c :: cs => nlIndent level ++ serializeInd level c ++ serializeIndList level cs

end

/-- `DataStore._pretty_xml`: XML declaration (as `ElementTree.write` with
`encoding="utf-8"` emits it), then the indented tree. -/
def pretty_xml (root : Xml) : String :=
  "<?xml version='1.0' encoding='utf-8'?>\n" ++ serializeInd 0 root

/-! ## The on-disk group store

One account's `devices` directory.  `raw` is the file's byte content, and
`parsed` its ElementTree parse outcome (`none` = `ET.ParseError`); the parser
itself is external to the repository, so the two are carried side by side. -/

structure StoredFile where
  raw : String
  parsed : Option Xml

/-- Directory contents in `listdir` order: file name to content. -/
abbrev Store := List (String × StoredFile)

/-- `path.exists` + `open(...)`: first entry with the file name. -/
def lookupFile (s : Store) (fn : String) : Option StoredFile :=
  (s.find? (fun p => p.1 == fn)).map (fun p => p.2)

/-- Whole-file overwrite (`open(fn, "w")` + `write`): replace in place when
present, create at the end of the directory otherwise. -/
def setFile (s : Store) (fn : String) (f : StoredFile) : Store :=
  if (s.find? (fun p => p.1 == fn)).isSome then
    s.map (fun p => if p.1 == fn then (fn, f) else p)
  else s ++ [(fn, f)]

/-- `os.remove`. -/
def removeFile (s : Store) (fn : String) : Store :=
  s.filter (fun p => p.1 ≠ fn)

/-- `f"Group_{group_id}.xml"`. -/
def groupFilename (gid : String) : String := "Group_" ++ gid ++ ".xml"

/-- `fn.startswith("Group_") and fn.endswith(".xml")`. -/
def isGroupFile (fn : String) : Bool :=
  pyStartsWith fn "Group_" && decide (".xml".data <:+ fn.data)

/-- `filename[len("Group_") : -len(".xml")]`. -/
def gidOfFilename (fn : String) : String := (fn.drop 6).dropRight 4

/-! ## `DataStore` group operations (`datastore.py`) -/

/-- Device registry of one account: device id to the parse outcome of its
stored `DEVICE_INFO_FILE` (`none` stands for a missing or unparsable file,
which `check_device_type` treats alike). -/
abbrev Devices := List (String × Option Xml)

/-- `DataStore.list_groups`: directory scan filtered by the group file-name
convention, file names cut down to group ids. -/
def list_groups (store : Store) : List String :=
  (store.filter (fun p => isGroupFile p.1)).map (fun p => gidOfFilename p.1)

/-- `DataStore.group_exists`. -/
def group_exists (store : Store) (gid : String) : Bool :=
  (lookupFile store (groupFilename gid)).isSome

/-- Scan loop of `DataStore.check_device_grouped`: skip files that do not
match the name convention, skip files that fail to parse (`ET.ParseError` is
caught and the loop continues), and return the id cut out of the file name of
the first record with a matching `deviceId` descendant. -/
def check_grouped_scan (d : String) : Store → Option String
  | [] => none
  | (fn, file) :: rest =>
    if ¬ isGroupFile fn then check_grouped_scan d rest
    else
      match file.parsed with
      | none => check_grouped_scan d rest
      | some root =>
        if rootHasDeviceId d root then some (gidOfFilename fn)
        else check_grouped_scan d rest

/-- `DataStore.check_device_grouped`. -/
def check_device_grouped (store : Store) (d : String) : Option String :=
  check_grouped_scan d store

/-- `DataStore.check_device_type`: the device info file must exist, parse,
and carry a direct `type` child with text exactly `SoundTouch 10`. -/
def check_device_type (devices : Devices) (d : String) : Bool :=
  match (devices.find? (fun p => p.1 == d)).map (fun p => p.2) with
  | none => false
  | some none => false
  | some (some root) =>
    match root.findChild "type" with
    | none => false
    | some ty => ty.text == some "SoundTouch 10"

/-- `root.findall("./roles/groupRole/deviceId")` with the truthy-text filter
`if d.text` applied by `validate_group_xml` and `add_group`. -/
def rolesPathDeviceIds (root : Xml) : List String :=
  (((childrenTagged "roles" root).map (childrenTagged "groupRole")).flatten.map
      (childrenTagged "deviceId")).flatten.filterMap
    (fun d => match d.text with
      | none => none
      | some t => if t = "" then none else some t)

/-- `DataStore.validate_group_xml` on the parse outcome of the document
(`none` = `ET.ParseError`, whose message is abstracted). -/
def validate_group_xml (req : Option Xml) : Except String Xml :=
  match req with
  | none => .error "Invalid XML: parse error"
  | some root =>
    match root.findChild "name" with
    | none => .error "Missing or empty <name> element"
    | some nameEl =>
      match nameEl.text with
      | none => .error "Missing or empty <name> element"
      | some nameText =>
        if pyStrip nameText = "" then .error "Missing or empty <name> element"
        else
          match root.findChild "masterDeviceId" with
          | none => .error "Missing <masterDeviceId> element"
          | some masterEl =>
            match masterEl.text with
            | none => .error "Missing <masterDeviceId> element"
            | some masterText =>
              if masterText = "" then .error "Missing <masterDeviceId> element"
              else if (rolesPathDeviceIds root).isEmpty then
                .error "No <groupRole>/<deviceId> entries found"
              else if masterText ∉ rolesPathDeviceIds root then
                .error "masterDeviceId must appear in group roles"
              else .ok root

/-- One decimal digit character. -/
def digitChar (d : Nat) : Char := Char.ofNat (48 + d % 10)

/-- Python `f"{n:07d}"` for `0 ≤ n ≤ 9999999` (the range guaranteed by
`random.randint(0, 9999999)`): seven zero-padded decimal digits. -/
def format07d (n : Nat) : String :=
  String.mk [digitChar (n / 1000000), digitChar (n / 100000), digitChar (n / 10000),
    digitChar (n / 1000), digitChar (n / 100), digitChar (n / 10), digitChar n]

/-- `DataStore._generate_group_id`: draw after draw until the drawn id has no
record file.  The draw sequence is an input; `none` models the (unbounded)
loop not terminating within the supplied draws. -/
def generate_group_id (store : Store) : List Nat → Option String
  | [] => none
  | n :: rest =>
    let group_id := format07d n
    if (lookupFile store (groupFilename group_id)).isSome then
      generate_group_id store rest
    else some group_id

/-- Conflict loop of `add_group`: first device whose `check_device_grouped`
result is truthy (a non-empty group id), with that id. -/
def firstGrouped (store : Store) : List String → Option (String × String)
  | [] => none
  | d :: ds =>
    match check_device_grouped store d with
    | some g => if g = "" then firstGrouped store ds else some (d, g)
    | none => firstGrouped store ds

/-- Type-check loop of `add_group`: first device that is not a SoundTouch 10. -/
def firstBadType (devices : Devices) : List String → Option String
  | [] => none
  | d :: ds => if check_device_type devices d then firstBadType devices ds else some d

/-- `DataStore.add_group`.  Returns the result string (pretty-printed XML on
success, error message otherwise) and the resulting directory; `none` models
the id-generation loop running beyond the supplied draws. -/
def add_group (devices : Devices) (draws : List Nat) (store : Store)
    (req : Option Xml) : Option (String × Store) :=
  match generate_group_id store draws with
  | none => none
  | some group_id =>
    let filename := groupFilename group_id
    if (lookupFile store filename).isSome then some ("Group already exists", store)
    else
      match validate_group_xml req with
      | .error e => some (e, store)
      | .ok root =>
        let device_ids := rolesPathDeviceIds root
        if device_ids.length ≠ 2 then
          some ("Group must contain exactly two deviceId entries", store)
        else
          match firstGrouped store device_ids with
          | some dg =>
            some ("Device " ++ dg.1 ++ " is already part of group " ++ dg.2, store)
          | none =>
            match firstBadType devices device_ids with
            | some d => some ("Device " ++ d ++ " is not of type 'SoundTouch 10'", store)
            | none =>
              let root' := root.setAttr "id" group_id
              let xml_out := pretty_xml root'
              some (xml_out, setFile store filename ⟨xml_out, some root'⟩)

/-- Name replacement of `modify_group`: overwrite the text of the first
`name` child (`root.find("name")`), or append a fresh `name` element at the
end (`ET.SubElement`) when there is none. -/
def setNameChild (new_name : String) : List Xml → List Xml
  | [] => [Xml.elem "name" [] (some new_name) []]
  | c :: cs =>
    if c.tag == "name" then Xml.elem c.tag c.attrs (some new_name) c.children :: cs
    else c :: setNameChild new_name cs

/-- `modify_group`'s updated tree. -/
def renameTree (new_name : String) (root : Xml) : Xml :=
  Xml.elem root.tag root.attrs root.text (setNameChild new_name root.children)

/-- `DataStore.modify_group`: rename a stored group after checking the stored
master device id, rewriting the whole file. -/
def modify_group (account : String) (store : Store) (group_id new_name
    master_device_id : String) : String × Store :=
  let group_file := groupFilename group_id
  match lookupFile store group_file with
  | none => ("Group does not exist in account " ++ account, store)
  | some file =>
    match file.parsed with
    | none => ("Stored group XML is invalid", store)
    | some root =>
      match root.findtext "masterDeviceId" with
      | none => ("Group has no masterDeviceId", store)
      | some stored_master =>
        if stored_master = "" then ("Group has no masterDeviceId", store)
        else if stored_master ≠ master_device_id then
          ("masterDeviceId does not match group master", store)
        else
          let root' := renameTree new_name root
          let xml_out := pretty_xml root'
          (xml_out, setFile store group_file ⟨xml_out, some root'⟩)

/-- `DataStore.delete_group`: `""` on success, an error message otherwise. -/
def delete_group (account : String) (store : Store) (group_id : String) :
    String × Store :=
  let filename := groupFilename group_id
  if (lookupFile store filename).isNone then
    ("Group " ++ group_id ++ " does not exist in account " ++ account, store)
  else ("", removeFile store filename)

/-! ## Remote protocol client and router helpers (`groups.py`) -/

/-- HTTP response produced by an endpoint or service handler
(`fastapi.Response` / `BoseXMLResponse`): body text and status code. -/
structure Resp where
  content : String
  status : Nat
deriving Repr, DecidableEq

/-- `_xml_status(ok)`. -/
def xml_status (ok : Bool) : Resp :=
  if ok then ⟨"<status>GROUP_OK</status>", 200⟩
  else ⟨"<status>GROUP_ERROR</status>", 500⟩

/-- Behaviour of the network during one `httpx` request: either a completed
HTTP exchange, or a transport-level failure (timeout, connection refusal),
which `httpx` surfaces by raising. -/
inductive Transport where
  | ok (status : Nat) (text : String)
  | fail (e : String)
deriving Repr, DecidableEq

/-- `_box_call`: builds the request and performs it without any
`try`/`except`, so a transport failure propagates as a raised exception,
modelled as `Except.error`.  An unsupported method raises `ValueError`
before any request is made. -/
def box_call (net : Transport) (method : String) : Except String (Nat × String) :=
  let m := pyUpper method
  if m = "GET" ∨ m = "POST" then
    match net with
    | .ok status text => .ok (status, text)
    | .fail e => .error e
  else .error ("Unsupported method " ++ method)

/-- Result of one remote call as the orchestrators see it after
`asyncio.gather(..., return_exceptions=True)` (or `try`/`except` for the
remove flow): `exn` is a raised exception captured as a value. -/
inductive RemoteOutcome where
  | exn (e : String)
  | resp (status : Nat) (text : String)
deriving Repr, DecidableEq

/-- Per-call success test of the create flow's aggregation loop: not an
exception, HTTP 200, and the body carries the `GROUP_OK` marker. -/
def create_call_ok : RemoteOutcome → Bool
  | .exn _ => false
  | .resp status text => status == 200 && pyContains text "GROUP_OK"

/-- Aggregation loop of `service_creategroup` over the gathered results. -/
def create_agg (results : List RemoteOutcome) : Bool :=
  results.all create_call_ok

/-- Per-call success test of the rename flow's aggregation loop: not an
exception and HTTP 200 — the body text is unpacked into `_text` and never
inspected. -/
def update_call_ok : RemoteOutcome → Bool
  | .exn _ => false
  | .resp status _ => status == 200

/-- Aggregation loop of `service_modgroup` over the gathered results. -/
def update_agg (results : List RemoteOutcome) : Bool :=
  results.all update_call_ok

/-- Status component of a gathered result (`none` for an exception): what the
rename flow's aggregation loop is allowed to look at. -/
def outcomeStatus : RemoteOutcome → Option Nat
  | .exn _ => none
  | .resp status _ => some status

/-- One remote call issued to a box. -/
structure BoxCall where
  ip : String
  path : String
  payload : Option String
deriving Repr, DecidableEq

/-- `_is_group_empty_xml`, parameterised by the external XML parser
(`ET.fromstring`; `none` = any exception, caught and turned into `False`). -/
def is_group_empty_xml (parse : String → Option Xml) (text : String) : Bool :=
  let t := pyStrip text
  if t = "" then false
  else if pyContains (pyRemoveSpaces t) "<group/>" then true
  else
    match parse t with
    | some root => root.tag == "group" && root.children.isEmpty
    | none => false

/-- The two fields of `DeviceInfo` that the group flows read. -/
structure DeviceInfoM where
  name : String
  ip_address : String
deriving Repr, DecidableEq

/-- `_build_group_payload_no_id`, as the element tree it constructs (the
serialized form is only ever parsed straight back by the reused endpoint,
and the ElementTree parser inverts the serializer on it). -/
def build_group_payload_no_id (name master_id master_ip slave_id slave_ip : String) :
    Xml :=
  Xml.elem "group" [] none
    [Xml.elem "name" [] (some name) [],
     Xml.elem "masterDeviceId" [] (some master_id) [],
     Xml.elem "roles" [] none
       [Xml.elem "groupRole" [] none
          [Xml.elem "deviceId" [] (some master_id) [],
           Xml.elem "role" [] (some "LEFT") [],
           Xml.elem "ipAddress" [] (some master_ip) []],
        Xml.elem "groupRole" [] none
          [Xml.elem "deviceId" [] (some slave_id) [],
           Xml.elem "role" [] (some "RIGHT") [],
           Xml.elem "ipAddress" [] (some slave_ip) []]],
     Xml.elem "senderIPAddress" [] (some master_ip) []]

/-- Scan loop of `_group_id_by_name`: per listed group id, read and parse the
file (any exception skips the id), compare the stripped `name` text. -/
def group_name_scan (store : Store) (name : String) : List String → Option String
  | [] => none
  | gid :: rest =>
    match lookupFile store (groupFilename gid) with
    | none => group_name_scan store name rest
    | some file =>
      match file.parsed with
      | none => group_name_scan store name rest
      | some root =>
        if pyStrip ((root.findtext "name").getD "") = name then some gid
        else group_name_scan store name rest

/-- `_group_id_by_name`. -/
def group_id_by_name (store : Store) (name : String) : Option String :=
  group_name_scan store name (list_groups store)

/-- `dict.fromkeys` de-duplication: keep first occurrences, preserve order. -/
def dedupKeepFirst (seen : List String) : List String → List String
  | [] => []
  | a :: l => if a ∈ seen then dedupKeepFirst seen l else a :: dedupKeepFirst (a :: seen) l

/-- `_extract_group_ips`: stripped, non-empty `ipAddress` texts of
`./roles/groupRole` entries, de-duplicated keeping first occurrences. -/
def extract_group_ips (root : Xml) : List String :=
  dedupKeepFirst []
    (((childrenTagged "roles" root).map (childrenTagged "groupRole")).flatten.filterMap
      (fun gr =>
        let ip := pyStrip ((gr.findtext "ipAddress").getD "")
        if ip = "" then none else some ip))

/-- `_extract_master_device_id`. -/
def extract_master_device_id (root : Xml) : String :=
  pyStrip ((root.findtext "masterDeviceId").getD "")

/-- `_extract_master_ip`: the stripped `senderIPAddress` when non-empty,
else the first extracted role ip, else `""`. -/
def extract_master_ip (root : Xml) : String :=
  let sender := pyStrip ((root.findtext "senderIPAddress").getD "")
  if sender ≠ "" then sender
  else
    match extract_group_ips root with
    | [] => ""
    | ip :: _ => ip

/-! ## Router endpoints (`get_groups_router`)

`accountOk` is the value of `datastore.account_exists(account)`; the account
registry lives outside the group store, so it is an input.  Request bodies
arrive as their parse outcome (`Option Xml`), see the header comment. -/

/-- `add_group_endpoint`: guard checks, then `datastore.add_group`, wrapping
a non-`<?xml` result into an `<error>` document with status 400. -/
def add_group_endpoint (account : String) (accountOk : Bool) (devices : Devices)
    (draws : List Nat) (store : Store) (req : Option Xml) : Option (Resp × Store) :=
  if ¬ accountOk then
    some (⟨"<error>Account " ++ account ++ " not found</error>", 400⟩, store)
  else
    match req with
    | none => some (⟨"<error>Invalid XML payload</error>", 400⟩, store)
    | some root =>
      if root.tag ≠ "group" then
        some (⟨"<error>Root element must be &lt;group&gt;</error>", 400⟩, store)
      else
        match add_group devices draws store (some root) with
        | none => none
        | some (result, store') =>
          if ¬ pyStartsWith (pyLStrip result) "<?xml" then
            some (⟨"<error>" ++ result ++ "</error>", 400⟩, store')
          else some (⟨result, 200⟩, store')

/-- `mod_group_endpoint`: guard checks on the payload, then
`datastore.modify_group`, wrapped like the add endpoint. -/
def mod_group_endpoint (account : String) (accountOk : Bool) (store : Store)
    (group : String) (req : Option Xml) : Resp × Store :=
  if ¬ accountOk then
    (⟨"<error>Account " ++ account ++ " not found</error>", 400⟩, store)
  else
    match req with
    | none => (⟨"<error>Invalid XML payload</error>", 400⟩, store)
    | some root =>
      if root.tag ≠ "group" then
        (⟨"<error>Root element must be &lt;group&gt;</error>", 400⟩, store)
      else
        match root.findChild "name" with
        | none => (⟨"<error>Missing group name</error>", 400⟩, store)
        | some nameEl =>
          match nameEl.text with
          | none => (⟨"<error>Missing group name</error>", 400⟩, store)
          | some nameText =>
            if nameText = "" then (⟨"<error>Missing group name</error>", 400⟩, store)
            else
              match root.findChild "masterDeviceId" with
              | none => (⟨"<error>Missing masterDeviceId</error>", 400⟩, store)
              | some masterEl =>
                match masterEl.text with
                | none => (⟨"<error>Missing masterDeviceId</error>", 400⟩, store)
                | some masterText =>
                  if masterText = "" then
                    (⟨"<error>Missing masterDeviceId</error>", 400⟩, store)
                  else
                    let rs := modify_group account store group nameText masterText
                    if ¬ pyStartsWith (pyLStrip rs.1) "<?xml" then
                      (⟨"<error>" ++ rs.1 ++ "</error>", 400⟩, rs.2)
                    else (⟨rs.1, 200⟩, rs.2)

/-- `delete_group_endpoint`. -/
def delete_group_endpoint (account : String) (accountOk : Bool) (store : Store)
    (group : String) : Resp × Store :=
  if ¬ accountOk then
    (⟨"<error>Account " ++ account ++ " not found</error>", 400⟩, store)
  else
    let rs := delete_group account store group
    if rs.1 ≠ "" then (⟨"<error>" ++ rs.1 ++ "</error>", 400⟩, rs.2)
    else (⟨"<status>Group " ++ group ++ " deleted successfully</status>", 200⟩, rs.2)

/-! ## Service handlers (`/service/account/...`) -/

/-- Outcome of a service handler: the HTTP response, the resulting group
directory, and the remote box calls that were issued. -/
structure ServiceOut where
  resp : Resp
  store : Store
  calls : List BoxCall

/-- `service_creategroup`.  `masterInfo`/`slaveInfo` are the outcomes of the
two `get_device_info` reads of the external device registry (`error` = any
raised exception, carried as its message).  `r1`/`r2` are the gathered
results of the two concurrent `addGroup` box calls, consumed only when those
calls are issued.  `none` models the id-generation loop outrunning `draws`. -/
def service_creategroup (account : String) (accountOk : Bool) (devices : Devices)
    (draws : List Nat) (store : Store) (master slave : Option String)
    (masterInfo slaveInfo : Except String DeviceInfoM)
    (r1 r2 : RemoteOutcome) : Option ServiceOut :=
  let master_id := pyStrip (master.getD "")
  let slave_id := pyStrip (slave.getD "")
  if master_id = "" ∨ slave_id = "" then
    some ⟨⟨"<error>Use ?master=...&slave=...</error>", 400⟩, store, []⟩
  else
    match masterInfo with
    | .error e => some ⟨⟨"<error>" ++ e ++ "</error>", 400⟩, store, []⟩
    | .ok master_info =>
      match slaveInfo with
      | .error e => some ⟨⟨"<error>" ++ e ++ "</error>", 400⟩, store, []⟩
      | .ok slave_info =>
        let xml_no_id := build_group_payload_no_id
          (master_info.name ++ " + " ++ slave_info.name)
          master_id master_info.ip_address slave_id slave_info.ip_address
        match add_group_endpoint account accountOk devices draws store (some xml_no_id) with
        | none => none
        | some (resp0, store') =>
          let xml_with_id := pyStrip resp0.content
          if pyContains xml_with_id "<error" ∧ ¬ pyContains xml_with_id "<group" then
            some ⟨⟨xml_with_id, 409⟩, store', []⟩
          else
            some ⟨xml_status (create_agg [r1, r2]), store',
              [⟨master_info.ip_address, "/addGroup", some xml_with_id⟩,
               ⟨slave_info.ip_address, "/addGroup", some xml_with_id⟩]⟩

/-- Group-id resolution shared by the mod/remove services: a given
`groupid` wins; otherwise `_group_id_by_name`, whose falsy results
(`None` or `""`) lead to the 404 branch. -/
def resolve_gid (store : Store) (gq nq : Option String) : Option String :=
  match gq with
  | some g => some g
  | none =>
    match group_id_by_name store (nq.getD "") with
    | none => none
    | some g => if g = "" then none else some g

/-- `service_modgroup`.  `remote` is the list of gathered results of the
concurrent `updateGroup` calls, one per extracted ip, consumed only when the
calls are issued. -/
def service_modgroup (account : String) (accountOk : Bool) (store : Store)
    (newname groupid name : Option String) (remote : List RemoteOutcome) :
    ServiceOut :=
  let nn := pyStrip (newname.getD "")
  let gq := optStripNone groupid
  let nq := optStripNone name
  if nn = "" then ⟨⟨"<error>Missing newname</error>", 400⟩, store, []⟩
  else if (gq.isNone ∧ nq.isNone) ∨ (gq.isSome ∧ nq.isSome) then
    ⟨⟨"<error>Use exactly one of groupid=... or name=...</error>", 400⟩, store, []⟩
  else
    match resolve_gid store gq nq with
    | none => ⟨⟨"<error>Group name not found</error>", 404⟩, store, []⟩
    | some gid =>
      match lookupFile store (groupFilename gid) with
      | none => ⟨⟨"<error>[Errno 2] No such file or directory</error>", 400⟩, store, []⟩
      | some file =>
        match file.parsed with
        | none => ⟨⟨"<error>XML parse error</error>", 400⟩, store, []⟩
        | some root =>
          let master_dev := extract_master_device_id root
          let ips := extract_group_ips root
          if master_dev = "" then
            ⟨⟨"<error>Stored group has no masterDeviceId</error>", 500⟩, store, []⟩
          else if ips.length ≠ 2 then
            ⟨⟨"<error>Stored group must contain exactly two ipAddress entries</error>",
              500⟩, store, []⟩
          else
            let payload := Xml.elem "group" [] none
              [Xml.elem "name" [] (some nn) [],
               Xml.elem "masterDeviceId" [] (some master_dev) []]
            let rs := mod_group_endpoint account accountOk store gid (some payload)
            let updated_xml := pyStrip rs.1.content
            if pyContains updated_xml "<error" ∧ ¬ pyContains updated_xml "<group" then
              ⟨⟨updated_xml, 409⟩, rs.2, []⟩
            else
              ⟨xml_status (update_agg remote), rs.2,
               ips.map (fun ip => ⟨ip, "/updateGroup", some updated_xml⟩)⟩

/-- `service_removegroup`.  `parse` is the external `ET.fromstring` used by
`_is_group_empty_xml` on the remote body; `remote` is the outcome of the one
`removeGroup` box call, consumed only when that call is reached. -/
def service_removegroup (parse : String → Option Xml) (account : String)
    (accountOk : Bool) (store : Store) (groupid name : Option String)
    (remote : RemoteOutcome) : ServiceOut :=
  let gq := optStripNone groupid
  let nq := optStripNone name
  if (gq.isNone ∧ nq.isNone) ∨ (gq.isSome ∧ nq.isSome) then
    ⟨⟨"<error>Use exactly one of groupid=... or name=...</error>", 400⟩, store, []⟩
  else
    match resolve_gid store gq nq with
    | none => ⟨⟨"<error>Group name not found</error>", 404⟩, store, []⟩
    | some gid =>
      match lookupFile store (groupFilename gid) with
      | none => ⟨⟨"<error>[Errno 2] No such file or directory</error>", 400⟩, store, []⟩
      | some file =>
        match file.parsed with
        | none => ⟨⟨"<error>XML parse error</error>", 400⟩, store, []⟩
        | some root =>
          let master_ip := extract_master_ip root
          if master_ip = "" then
            ⟨⟨"<error>Cannot determine master ip</error>", 500⟩, store, []⟩
          else
            let call : BoxCall := ⟨master_ip, "/removeGroup", none⟩
            match remote with
            | .exn e =>
              ⟨⟨"<error>removeGroup request failed: " ++ e ++ "</error>", 500⟩, store,
                [call]⟩
            | .resp status text =>
              if status ≠ 200 ∨ ¬ is_group_empty_xml parse text then
                ⟨⟨"<error>removeGroup failed on " ++ master_ip ++ ": HTTP " ++
                    toString status ++ " " ++ text ++ "</error>", 500⟩, store, [call]⟩
              else
                let dr := delete_group_endpoint account accountOk store gid
                if 300 ≤ dr.1.status then
                  ⟨⟨"<error>Removed on box, but datastore delete failed</error>", 500⟩,
                    dr.2, [call]⟩
                else ⟨xml_status true, dr.2, [call]⟩

/-! ## Specification-side definition and concrete fixtures -/

/-- Modelled from the spec's words for `findContaining` ("the id of the first
parsable record whose roles contain the queried device id"): containment is
membership of the queried id among the record's `roles`-section device ids.
For comparison with `check_device_grouped`, which searches `.//deviceId`
descendants anywhere in the document. -/
def findContainingSpec (store : Store) (d : String) : Option String :=
  (store.filterMap (fun p =>
    if isGroupFile p.1 then
      p.2.parsed.bind (fun root =>
        if d ∈ rolesPathDeviceIds root then some (gidOfFilename p.1) else none)
    else none)).head?

/-- First-parsable-match characterisation of the `check_device_grouped` scan
(the amended reading of the containment claim). -/
def checkGroupedFirstMatch (store : Store) (d : String) : Option String :=
  (store.filterMap (fun p =>
    if isGroupFile p.1 then
      p.2.parsed.bind (fun root =>
        if rootHasDeviceId d root then some (gidOfFilename p.1) else none)
    else none)).head?

/-- Device-info tree of a SoundTouch 10 device. -/
def infoST10 : Xml :=
  Xml.elem "info" [] none [Xml.elem "type" [] (some "SoundTouch 10") []]

/-- Registry with two SoundTouch 10 devices. -/
def devsTwoST10 : Devices := [("d1", some infoST10), ("d2", some infoST10)]

/-- A well-formed persisted group record (two roles, master `d1`). -/
def groupRootD1D2 : Xml :=
  Xml.elem "group" [("id", "0000007")] none
    [Xml.elem "name" [] (some "G") [],
     Xml.elem "masterDeviceId" [] (some "d1") [],
     Xml.elem "roles" [] none
       [Xml.elem "groupRole" [] none
          [Xml.elem "deviceId" [] (some "d1") [],
           Xml.elem "role" [] (some "LEFT") [],
           Xml.elem "ipAddress" [] (some "10.0.0.5") []],
        Xml.elem "groupRole" [] none
          [Xml.elem "deviceId" [] (some "d2") [],
           Xml.elem "role" [] (some "RIGHT") [],
           Xml.elem "ipAddress" [] (some "10.0.0.6") []]],
     Xml.elem "senderIPAddress" [] (some "10.0.0.5") []]

/-- Directory holding exactly the record `groupRootD1D2`, in the canonical
byte form the subsystem itself writes. -/
def storeOne : Store :=
  [("Group_0000007.xml", ⟨pretty_xml groupRootD1D2, some groupRootD1D2⟩)]

/-- A stored record whose only `deviceId` element sits outside any roles
section (such a record passes `validate_group_xml`, which never forbids
extra elements, so `add_group` can persist one). -/
def strayRolesTree : Xml :=
  Xml.elem "group" [] none [Xml.elem "deviceId" [] (some "dX") []]

/-- Directory holding only that stray-deviceId record. -/
def storeStray : Store := [("Group_0000001.xml", ⟨"<raw>", some strayRolesTree⟩)]

/-- A stored record whose member device id contains the substring
`<group` (legal on the file system; `validate_group_xml` accepts it). -/
def ltGroupTree : Xml :=
  Xml.elem "group" [] none [Xml.elem "deviceId" [] (some "<group") []]

/-- Directory holding only that record. -/
def storeLtGroup : Store := [("Group_0000001.xml", ⟨"<raw>", some ltGroupTree⟩)]

/-- Create request whose two role entries carry the same device id `d1`
(exactly what `_build_group_payload_no_id` produces for master = slave). -/
def dupReqTree : Xml :=
  build_group_payload_no_id "A + A" "d1" "10.0.0.5" "d1" "10.0.0.5"

/-! ## Helper lemmas -/

theorem mk_data (s : String) : String.mk s.data = s := by
  cases s; rfl

theorem lstripL_eq_self {l : List Char} (h : ∀ c, l.head? = some c → ¬ c.isWhitespace) :
    lstripL l = l := by
  cases l with
  | nil => rfl
  | cons c cs => simp [lstripL, h c rfl]

theorem pyLStrip_eq_self {s : String} {c : Char} (h : s.data.head? = some c)
    (hw : ¬ c.isWhitespace) : pyLStrip s = s := by
  unfold pyLStrip
  rw [lstripL_eq_self (fun c' hc' => by rw [h] at hc'; cases hc'; exact hw), mk_data]

theorem pyStrip_eq_self {s : String} {c d : Char} (h1 : s.data.head? = some c)
    (hw1 : ¬ c.isWhitespace) (h2 : s.data.getLast? = some d) (hw2 : ¬ d.isWhitespace) :
    pyStrip s = s := by
  have e1 : lstripL s.data = s.data :=
    lstripL_eq_self (fun c' hc' => by rw [h1] at hc'; cases hc'; exact hw1)
  have e2 : lstripL s.data.reverse = s.data.reverse :=
    lstripL_eq_self (fun d' hd' => by
      rw [List.head?_reverse, h2] at hd'; cases hd'; exact hw2)
  unfold pyStrip
  rw [e1, e2, List.reverse_reverse, mk_data]

theorem head?_append_left {a : String} {c : Char} (h : a.data.head? = some c)
    (b : List Char) : (a.data ++ b).head? = some c := by
  rw [List.head?_append_of_ne_nil a.data (by intro hn; rw [hn] at h; cases h)]
  exact h

theorem getLast?_append_right {b : String} {c : Char} (h : b.data.getLast? = some c)
    (a : List Char) : (a ++ b.data).getLast? = some c := by
  rw [List.getLast?_append_of_ne_nil a (by intro hn; rw [hn] at h; cases h)]
  exact h

theorem ne_of_head {a b : String} {c c' : Char} (ha : a.data.head? = some c)
    (hb : b.data.head? = some c') (h : c ≠ c') : a ≠ b := by
  intro he
  rw [he, hb] at ha
  cases ha
  exact h rfl

theorem serializeInd_data_head (level : Nat) (x : Xml) :
    (serializeInd level x).data.head? = some '<' := by
  cases x with
  | elem tag attrs text cs =>
    cases text with
    | none =>
      cases cs with
      | nil =>
        simp only [serializeInd, String.data_append]
        exact head?_append_left (a := "<") rfl _
      | cons c cs' =>
        simp only [serializeInd, String.data_append]
        exact head?_append_left (a := "<") rfl _
    | some t =>
      cases cs with
      | nil =>
        simp only [serializeInd, String.data_append]
        exact head?_append_left (a := "<") rfl _
      | cons c cs' =>
        simp only [serializeInd, String.data_append]
        exact head?_append_left (a := "<") rfl _

theorem serializeInd_data_getLast (level : Nat) (x : Xml) :
    (serializeInd level x).data.getLast? = some '>' := by
  cases x with
  | elem tag attrs text cs =>
    cases text with
    | none =>
      cases cs with
      | nil =>
        simp only [serializeInd, String.data_append]
        exact getLast?_append_right (b := " />") rfl _
      | cons c cs' =>
        simp only [serializeInd, String.data_append]
        exact getLast?_append_right (b := ">") rfl _
    | some t =>
      cases cs with
      | nil =>
        simp only [serializeInd, String.data_append]
        exact getLast?_append_right (b := ">") rfl _
      | cons c cs' =>
        simp only [serializeInd, String.data_append]
        exact getLast?_append_right (b := ">") rfl _

theorem pretty_xml_data_head (x : Xml) : (pretty_xml x).data.head? = some '<' := by
  unfold pretty_xml
  rw [String.data_append]
  exact head?_append_left (a := "<?xml version='1.0' encoding='utf-8'?>\n") rfl _

theorem pretty_xml_data_getLast (x : Xml) : (pretty_xml x).data.getLast? = some '>' := by
  unfold pretty_xml
  rw [String.data_append]
  rw [List.getLast?_append_of_ne_nil _ (by
    intro hn
    have := serializeInd_data_getLast 0 x
    rw [hn] at this
    cases this)]
  exact serializeInd_data_getLast 0 x

theorem pyStrip_pretty_xml (x : Xml) : pyStrip (pretty_xml x) = pretty_xml x :=
  pyStrip_eq_self (pretty_xml_data_head x) (by decide)
    (pretty_xml_data_getLast x) (by decide)

theorem pyLStrip_pretty_xml (x : Xml) : pyLStrip (pretty_xml x) = pretty_xml x :=
  pyLStrip_eq_self (pretty_xml_data_head x) (by decide)

theorem pretty_xml_startsWith_decl (x : Xml) :
    pyStartsWith (pyLStrip (pretty_xml x)) "<?xml" = true := by
  rw [pyLStrip_pretty_xml]
  unfold pyStartsWith pretty_xml
  rw [String.data_append, decide_eq_true_eq]
  exact (show "<?xml".data <+: "<?xml version='1.0' encoding='utf-8'?>\n".data by
    decide).trans (List.prefix_append _ _)

theorem serializeInd_data_front (level : Nat) (x : Xml) :
    ∃ r, (serializeInd level x).data = '<' :: (x.tag.data ++ r) := by
  cases x with
  | elem tag attrs text cs =>
    cases text with
    | none =>
      cases cs with
      | nil =>
        exact ⟨(attrsStr attrs).data ++ " />".data, by
          simp [serializeInd, String.data_append, Xml.tag]⟩
      | cons c cs' =>
        exact ⟨(attrsStr attrs).data ++ ">".data ++
          (serializeIndList (level + 1) (c :: cs')).data ++ (nlIndent level).data ++
          "</".data ++ tag.data ++ ">".data, by
          simp [serializeInd, String.data_append, Xml.tag]⟩
    | some t =>
      cases cs with
      | nil =>
        exact ⟨(attrsStr attrs).data ++ ">".data ++ (escapeText t).data ++
          "</".data ++ tag.data ++ ">".data, by
          simp [serializeInd, String.data_append, Xml.tag]⟩
      | cons c cs' =>
        exact ⟨(attrsStr attrs).data ++ ">".data ++
          (serializeIndList (level + 1) (c :: cs')).data ++ (nlIndent level).data ++
          "</".data ++ tag.data ++ ">".data, by
          simp [serializeInd, String.data_append, Xml.tag]⟩

theorem pretty_xml_contains_group {x : Xml} (h : x.tag = "group") :
    pyContains (pyStrip (pretty_xml x)) "<group" = true := by
  rw [pyStrip_pretty_xml]
  unfold pyContains pretty_xml
  rw [String.data_append, decide_eq_true_eq]
  obtain ⟨r, hr⟩ := serializeInd_data_front 0 x
  rw [hr, h]
  have hpre : "<group".data <+: '<' :: ("group".data ++ r) := by
    have : "<group".data = '<' :: "group".data := by decide
    rw [this]
    exact (List.prefix_cons_inj '<').mpr (List.prefix_append _ _)
  exact hpre.isInfix.trans (List.suffix_append _ _).isInfix

theorem errWrap_data_head (msg : String) :
    ("<error>" ++ msg ++ "</error>").data.head? = some '<' := by
  rw [String.data_append, String.data_append]
  rw [List.append_assoc]
  exact head?_append_left (a := "<error>") rfl _

theorem errWrap_data_getLast (msg : String) :
    ("<error>" ++ msg ++ "</error>").data.getLast? = some '>' := by
  rw [String.data_append, String.data_append]
  exact getLast?_append_right (b := "</error>") rfl _

theorem pyStrip_errWrap (msg : String) :
    pyStrip ("<error>" ++ msg ++ "</error>") = "<error>" ++ msg ++ "</error>" :=
  pyStrip_eq_self (errWrap_data_head msg) (by decide) (errWrap_data_getLast msg) (by decide)

theorem errWrap_contains_error (msg : String) :
    pyContains ("<error>" ++ msg ++ "</error>") "<error" = true := by
  unfold pyContains
  rw [String.data_append, String.data_append, List.append_assoc, decide_eq_true_eq]
  have hpre : "<error".data <+: "<error>".data ++ (msg.data ++ "</error>".data) := by
    exact (show "<error".data <+: "<error>".data by decide).trans (List.prefix_append _ _)
  exact hpre.isInfix

theorem not_startsWith_decl {s : String} {c : Char} (h : s.data.head? = some c)
    (hw : ¬ c.isWhitespace) (hc : c ≠ '<') :
    pyStartsWith (pyLStrip s) "<?xml" = false := by
  rw [pyLStrip_eq_self h hw]
  unfold pyStartsWith
  rw [decide_eq_false_iff_not]
  intro hpre
  obtain ⟨t, ht⟩ := hpre
  have : s.data.head? = some '<' := by
    rw [← ht]
    exact head?_append_left (a := "<?xml") rfl _
  rw [h] at this
  cases this
  exact hc rfl

/-! ## Claim C10 -/

/-- C10: for every stored group whose recorded `masterDeviceId` (a non-empty
text, hence truthy) differs from the `master_device_id` argument supplied to
`modify_group`, the operation returns the error message
`masterDeviceId does not match group master` and the stored record file is
not written — the directory is unchanged. -/
theorem c10_modify_group_master_mismatch (account : String) (store : Store)
    (gid new_name arg m : String) (file : StoredFile) (root : Xml)
    (hfile : lookupFile store (groupFilename gid) = some file)
    (hparsed : file.parsed = some root)
    (hm : root.findtext "masterDeviceId" = some m)
    (hne : m ≠ "") (hdiff : m ≠ arg) :
    modify_group account store gid new_name arg
      = ("masterDeviceId does not match group master", store) := by
  simp only [modify_group, hfile, hparsed, hm]
  simp [hne, hdiff]

/-- Witness for C10 at a concrete store. -/
theorem c10_witness :
    lookupFile storeOne (groupFilename "0000007")
        = some ⟨pretty_xml groupRootD1D2, some groupRootD1D2⟩
    ∧ groupRootD1D2.findtext "masterDeviceId" = some "d1"
    ∧ ("d1" : String) ≠ "" ∧ ("d1" : String) ≠ "d2"
    ∧ modify_group "acct" storeOne "0000007" "X" "d2"
        = ("masterDeviceId does not match group master", storeOne) :=
  ⟨rfl, rfl, by decide, by decide,
   c10_modify_group_master_mismatch "acct" storeOne "0000007" "X" "d2" "d1"
     ⟨pretty_xml groupRootD1D2, some groupRootD1D2⟩ groupRootD1D2 rfl rfl rfl
     (by decide) (by decide)⟩

/-! ## Claim C6 -/

theorem find?_setNameChild {t : String} (ht : t ≠ "name") (nn : String) :
    ∀ cs : List Xml,
      (setNameChild nn cs).find? (fun c => c.tag == t) = cs.find? (fun c => c.tag == t)
  | [] => by
    have h1 : (("name" : String) == t) = false := beq_eq_false_iff_ne.mpr (Ne.symm ht)
    simp [setNameChild, List.find?, Xml.tag, h1]
  | (Xml.elem ct ca ctx cc) :: cs => by
    by_cases hc : ct = "name"
    · subst hc
      have h1 : (("name" : String) == t) = false := beq_eq_false_iff_ne.mpr (Ne.symm ht)
      simp [setNameChild, List.find?, Xml.tag, Xml.attrs, Xml.children, h1]
    · have h2 : ((ct : String) == "name") = false := beq_eq_false_iff_ne.mpr hc
      have hstep : setNameChild nn (Xml.elem ct ca ctx cc :: cs)
          = Xml.elem ct ca ctx cc :: setNameChild nn cs := by
        simp [setNameChild, Xml.tag, h2]
      rw [hstep]
      by_cases hct : ct = t
      · have hb : ((ct : String) == t) = true := beq_iff_eq.mpr hct
        simp [List.find?, Xml.tag, hb]
      · have hb : ((ct : String) == t) = false := beq_eq_false_iff_ne.mpr hct
        simp only [List.find?, Xml.tag, hb]
        exact find?_setNameChild ht nn cs

theorem findtext_setNameChild (nn : String) :
    ∀ cs : List Xml,
      ((setNameChild nn cs).find? (fun c => c.tag == "name")).map
          (fun c => c.text.getD "") = some nn
  | [] => by simp [setNameChild, List.find?, Xml.tag, Xml.text]
  | (Xml.elem ct ca ctx cc) :: cs => by
    by_cases hc : ct = "name"
    · subst hc
      simp [setNameChild, List.find?, Xml.tag, Xml.text, Xml.attrs, Xml.children]
    · have h2 : ((ct : String) == "name") = false := beq_eq_false_iff_ne.mpr hc
      have hstep : setNameChild nn (Xml.elem ct ca ctx cc :: cs)
          = Xml.elem ct ca ctx cc :: setNameChild nn cs := by
        simp [setNameChild, Xml.tag, h2]
      rw [hstep]
      simp only [List.find?, Xml.tag, h2]
      exact findtext_setNameChild nn cs

theorem findChild_renameTree {t : String} (ht : t ≠ "name") (nn : String) (root : Xml) :
    (renameTree nn root).findChild t = root.findChild t := by
  unfold Xml.findChild renameTree
  simp only [Xml.children]
  exact find?_setNameChild ht nn root.children

theorem findtext_renameTree (nn : String) (root : Xml) :
    (renameTree nn root).findtext "name" = some nn := by
  unfold Xml.findtext Xml.findChild renameTree
  simp only [Xml.children]
  exact findtext_setNameChild nn root.children

/-- C6: a successful rename of a stored group record rewrites the file with
the same tree in which only the `name` field changed: the `masterDeviceId`
element and the `roles` section are the same subtrees before and after, so
their serialized renderings — the bytes of those sections in the persisted
file — are identical, while the `name` text becomes the new name. -/
theorem c6_rename_changes_only_name (account : String) (store : Store)
    (gid new_name m : String) (file : StoredFile) (root : Xml)
    (hfile : lookupFile store (groupFilename gid) = some file)
    (hparsed : file.parsed = some root)
    (hm : root.findtext "masterDeviceId" = some m) (hne : m ≠ "") :
    modify_group account store gid new_name m
      = (pretty_xml (renameTree new_name root),
         setFile store (groupFilename gid)
           ⟨pretty_xml (renameTree new_name root), some (renameTree new_name root)⟩)
    ∧ (renameTree new_name root).findChild "masterDeviceId"
        = root.findChild "masterDeviceId"
    ∧ (renameTree new_name root).findChild "roles" = root.findChild "roles"
    ∧ ((renameTree new_name root).findChild "masterDeviceId").map (serializeInd 1)
        = (root.findChild "masterDeviceId").map (serializeInd 1)
    ∧ ((renameTree new_name root).findChild "roles").map (serializeInd 1)
        = (root.findChild "roles").map (serializeInd 1)
    ∧ (renameTree new_name root).findtext "name" = some new_name := by
  refine ⟨?_, ?_, ?_, ?_, ?_, ?_⟩
  · simp only [modify_group, hfile, hparsed, hm]
    simp [hne]
  · exact findChild_renameTree (by decide) new_name root
  · exact findChild_renameTree (by decide) new_name root
  · rw [findChild_renameTree (by decide) new_name root]
  · rw [findChild_renameTree (by decide) new_name root]
  · exact findtext_renameTree new_name root

/-- Witness for C6 at a concrete store. -/
theorem c6_witness :
    lookupFile storeOne (groupFilename "0000007")
        = some ⟨pretty_xml groupRootD1D2, some groupRootD1D2⟩
    ∧ groupRootD1D2.findtext "masterDeviceId" = some "d1"
    ∧ ("d1" : String) ≠ ""
    ∧ modify_group "acct" storeOne "0000007" "Living Room" "d1"
        = (pretty_xml (renameTree "Living Room" groupRootD1D2),
           setFile storeOne (groupFilename "0000007")
             ⟨pretty_xml (renameTree "Living Room" groupRootD1D2),
              some (renameTree "Living Room" groupRootD1D2)⟩)
    ∧ (renameTree "Living Room" groupRootD1D2).findtext "name" = some "Living Room" :=
  ⟨rfl, rfl, by decide,
   (c6_rename_changes_only_name "acct" storeOne "0000007" "Living Room" "d1"
     ⟨pretty_xml groupRootD1D2, some groupRootD1D2⟩ groupRootD1D2 rfl rfl rfl
     (by decide)).1,
   (c6_rename_changes_only_name "acct" storeOne "0000007" "Living Room" "d1"
     ⟨pretty_xml groupRootD1D2, some groupRootD1D2⟩ groupRootD1D2 rfl rfl rfl
     (by decide)).2.2.2.2.2⟩

/-! ## Claim C9 -/

theorem digitChar_isDigit (m : Nat) : (digitChar m).isDigit = true := by
  unfold digitChar
  have h : m % 10 < 10 := Nat.mod_lt _ (by decide)
  generalize hk : m % 10 = k at h
  interval_cases k <;> decide

theorem format07d_length (n : Nat) : (format07d n).length = 7 := rfl

theorem format07d_digits (n : Nat) : ∀ c ∈ (format07d n).data, c.isDigit = true := by
  intro c hc
  have e : (format07d n).data
      = [digitChar (n / 1000000), digitChar (n / 100000), digitChar (n / 10000),
         digitChar (n / 1000), digitChar (n / 100), digitChar (n / 10), digitChar n] := rfl
  rw [e] at hc
  simp only [List.mem_cons, List.not_mem_nil, or_false] at hc
  rcases hc with h | h | h | h | h | h | h <;> (rw [h]; exact digitChar_isDigit _)

theorem generate_group_id_fresh (store : Store) :
    ∀ (draws : List Nat) (gid : String), generate_group_id store draws = some gid →
      lookupFile store (groupFilename gid) = none := by
  intro draws
  induction draws with
  | nil => intro gid h; cases h
  | cons n rest ih =>
    intro gid h
    unfold generate_group_id at h
    by_cases hx : (lookupFile store (groupFilename (format07d n))).isSome
    · rw [if_pos hx] at h
      exact ih gid h
    · rw [if_neg hx] at h
      cases h
      exact Option.not_isSome_iff_eq_none.mp hx

theorem generate_group_id_shape (store : Store) :
    ∀ (draws : List Nat) (gid : String), generate_group_id store draws = some gid →
      ∃ n, n ∈ draws ∧ gid = format07d n := by
  intro draws
  induction draws with
  | nil => intro gid h; cases h
  | cons n rest ih =>
    intro gid h
    unfold generate_group_id at h
    by_cases hx : (lookupFile store (groupFilename (format07d n))).isSome
    · rw [if_pos hx] at h
      obtain ⟨m, hm, he⟩ := ih gid h
      exact ⟨m, List.mem_cons_of_mem n hm, he⟩
    · rw [if_neg hx] at h
      cases h
      exact ⟨n, List.mem_cons_self n rest, rfl⟩

theorem validate_error_not_exists {req : Option Xml} {e : String}
    (h : validate_group_xml req = .error e) : e ≠ "Group already exists" := by
  unfold validate_group_xml at h
  repeat' split at h
  all_goals
    first
      | (injection h with h'; subst h'; decide)
      | injection h

theorem device_msg_head (d rest : String) :
    ("Device " ++ d ++ rest).data.head? = some 'D' := by
  rw [String.data_append, String.data_append, List.append_assoc]
  exact head?_append_left (a := "Device ") rfl _

/-- C9: the `Group already exists` branch of `add_group` is unreachable in
the sequential model: whenever `_generate_group_id` returns an id, that id is
a seven-character all-digit string (zero-padded decimal, given the
`random.randint(0, 9999999)` range) whose record file does not exist, so the
existence check performed immediately afterwards on the same file name finds
no file, and no `add_group` run over the same directory and draws can return
the `Group already exists` error. -/
theorem c9_exists_branch_unreachable (store : Store) (draws : List Nat)
    (_hdraws : ∀ n ∈ draws, n ≤ 9999999) (gid : String)
    (hgen : generate_group_id store draws = some gid) :
    gid.length = 7 ∧ (∀ c ∈ gid.data, c.isDigit = true)
    ∧ lookupFile store (groupFilename gid) = none
    ∧ ∀ (devices : Devices) (req : Option Xml) (res : String × Store),
        add_group devices draws store req = some res →
          res.1 ≠ "Group already exists" := by
  obtain ⟨n, hn, he⟩ := generate_group_id_shape store draws gid hgen
  have hfresh := generate_group_id_fresh store draws gid hgen
  refine ⟨by rw [he]; exact format07d_length n,
    by rw [he]; exact format07d_digits n, hfresh, ?_⟩
  intro devices req res hadd
  unfold add_group at hadd
  rw [hgen] at hadd
  simp only [hfresh, Option.isSome_none, Bool.false_eq_true, if_false] at hadd
  cases hv : validate_group_xml req with
  | error e =>
    simp only [hv] at hadd
    injection hadd with h'
    rw [← h']
    exact validate_error_not_exists hv
  | ok root =>
    simp only [hv] at hadd
    by_cases hlen : (rolesPathDeviceIds root).length ≠ 2
    · rw [if_pos hlen] at hadd
      injection hadd with h'
      rw [← h']
      exact (by decide :
        "Group must contain exactly two deviceId entries" ≠ "Group already exists")
    · rw [if_neg hlen] at hadd
      cases hg : firstGrouped store (rolesPathDeviceIds root) with
      | some dg =>
        simp only [hg] at hadd
        injection hadd with h'
        rw [← h']
        exact ne_of_head (device_msg_head dg.1 (" is already part of group " ++ dg.2))
          rfl (by decide)
      | none =>
        simp only [hg] at hadd
        cases hb : firstBadType devices (rolesPathDeviceIds root) with
        | some d =>
          simp only [hb] at hadd
          injection hadd with h'
          rw [← h']
          exact ne_of_head (device_msg_head d " is not of type 'SoundTouch 10'")
            rfl (by decide)
        | none =>
          simp only [hb] at hadd
          injection hadd with h'
          rw [← h']
          exact ne_of_head (pretty_xml_data_head _) rfl (by decide)

/-- Witness for C9 on an empty directory with a single draw. -/
theorem c9_witness :
    (∀ n ∈ ([3] : List Nat), n ≤ 9999999)
    ∧ generate_group_id ([] : Store) [3] = some "0000003"
    ∧ (("0000003" : String).length = 7
       ∧ (∀ c ∈ ("0000003" : String).data, c.isDigit = true)
       ∧ lookupFile ([] : Store) (groupFilename "0000003") = none
       ∧ ∀ (devices : Devices) (req : Option Xml) (res : String × Store),
           add_group devices [3] ([] : Store) req = some res →
             res.1 ≠ "Group already exists") :=
  ⟨by decide, by decide,
   c9_exists_branch_unreachable ([] : Store) [3] (by decide) "0000003" (by decide)⟩

/-! ## Claim C7 -/

theorem check_grouped_scan_eq_firstMatch (d : String) :
    ∀ store : Store,
      check_grouped_scan d store
        = (store.filterMap (fun p =>
            if isGroupFile p.1 then
              p.2.parsed.bind (fun root =>
                if rootHasDeviceId d root then some (gidOfFilename p.1) else none)
            else none)).head?
  | [] => rfl
  | (fn, file) :: rest => by
    have ih := check_grouped_scan_eq_firstMatch d rest
    by_cases hfn : isGroupFile fn
    · cases hp : file.parsed with
      | none =>
        simp [check_grouped_scan, List.filterMap_cons, hfn, hp, ih]
      | some root =>
        by_cases hroot : rootHasDeviceId d root
        · simp [check_grouped_scan, List.filterMap_cons, hfn, hp, hroot]
        · simp [check_grouped_scan, List.filterMap_cons, hfn, hp, hroot, ih]
    · simp [check_grouped_scan, List.filterMap_cons, hfn, ih]

theorem check_grouped_scan_skip (d fn raw : String) :
    ∀ (s1 s2 : Store),
      check_grouped_scan d (s1 ++ (fn, ⟨raw, none⟩) :: s2) = check_grouped_scan d (s1 ++ s2)
  | [], s2 => by
    by_cases hfn : isGroupFile fn
    · simp [check_grouped_scan, hfn]
    · simp [check_grouped_scan, hfn]
  | (fn', file') :: s1, s2 => by
    have ih := check_grouped_scan_skip d fn raw s1 s2
    by_cases hfn' : isGroupFile fn'
    · cases hp : file'.parsed with
      | none => simp [check_grouped_scan, hfn', hp, ih]
      | some root =>
        by_cases hroot : rootHasDeviceId d root
        · simp [check_grouped_scan, hfn', hp, hroot]
        · simp [check_grouped_scan, hfn', hp, hroot, ih]
    · simp [check_grouped_scan, hfn', ih]

/-- C7 (amended): the containment scan never aborts: a record file that
fails to parse — and likewise any file outside the naming convention — is
skipped and the scan continues over the remaining records exactly as if the
file were absent; the result is the id of the first record, in directory
order, that parses and contains a `deviceId` element with the queried id
anywhere in the document (the `.//deviceId` search is not restricted to the
roles section), or absent if none does. -/
theorem c7_scan_skips_corrupt (d : String) :
    (∀ (s1 s2 : Store) (fn raw : String),
        check_device_grouped (s1 ++ (fn, ⟨raw, none⟩) :: s2) d
          = check_device_grouped (s1 ++ s2) d)
    ∧ ∀ store : Store, check_device_grouped store d = checkGroupedFirstMatch store d :=
  ⟨fun s1 s2 fn raw => check_grouped_scan_skip d fn raw s1 s2,
   fun store => check_grouped_scan_eq_firstMatch d store⟩

/-- C7 counterexample: on a store whose single record carries its only
`deviceId` element outside any roles section, `check_device_grouped` reports
that record, while the spec's roles-containment reading reports no group —
the claim's "whose roles contain the queried device id" does not describe
the code. -/
theorem c7_counterexample :
    check_device_grouped storeStray "dX" = some "0000001"
    ∧ findContainingSpec storeStray "dX" = none := by
  constructor <;> decide

/-! ## Claim C8 -/

/-- C8 counterexample: at a concrete transport failure, `_box_call` yields a
raised exception (`Except.error`), not a failure result tuple — there is no
`try`/`except` in `_box_call`, so the `httpx` exception propagates. -/
theorem c8_counterexample :
    box_call (Transport.fail "ReadTimeout") "GET" = Except.error "ReadTimeout" := rfl

/-- C8 (amended): a transport-level failure propagates out of `_box_call` as
a raised exception for both supported methods; it is each caller that
converts it — the create and rename aggregation loops treat a gathered
exception as a failed call, and the remove flow catches it, returns an error
response, and leaves the store untouched — so no flow lets it escape. -/
theorem c8_exceptions_handled_by_callers :
    (∀ e : String, box_call (Transport.fail e) "GET" = Except.error e)
    ∧ (∀ e : String, box_call (Transport.fail e) "POST" = Except.error e)
    ∧ (∀ e : String, create_call_ok (RemoteOutcome.exn e) = false)
    ∧ (∀ e : String, update_call_ok (RemoteOutcome.exn e) = false)
    ∧ ∀ (parse : String → Option Xml) (account : String) (accountOk : Bool)
        (store : Store) (groupid name : Option String) (e : String),
        (service_removegroup parse account accountOk store groupid name
            (RemoteOutcome.exn e)).store = store
        ∧ (service_removegroup parse account accountOk store groupid name
            (RemoteOutcome.exn e)).resp.status ≠ 200 := by
  refine ⟨fun e => rfl, fun e => rfl, fun e => rfl, fun e => rfl, ?_⟩
  intro parse account accountOk store groupid name e
  simp only [service_removegroup]
  by_cases h1 : ((optStripNone groupid).isNone ∧ (optStripNone name).isNone)
      ∨ ((optStripNone groupid).isSome ∧ (optStripNone name).isSome)
  · rw [if_pos h1]
    exact ⟨rfl, by norm_num⟩
  · rw [if_neg h1]
    cases hres : resolve_gid store (optStripNone groupid) (optStripNone name) with
    | none => exact ⟨rfl, by norm_num⟩
    | some gid =>
      dsimp only
      cases hlook : lookupFile store (groupFilename gid) with
      | none => exact ⟨rfl, by norm_num⟩
      | some file =>
        dsimp only
        cases hp : file.parsed with
        | none => exact ⟨rfl, by norm_num⟩
        | some root =>
          dsimp only
          by_cases hip : extract_master_ip root = ""
          · rw [if_pos hip]
            exact ⟨rfl, by norm_num⟩
          · rw [if_neg hip]
            exact ⟨rfl, by norm_num⟩

/-! ## Claim C3 -/

theorem rolesPathDeviceIds_setAttr (x : Xml) (k v : String) :
    rolesPathDeviceIds (x.setAttr k v) = rolesPathDeviceIds x := by
  cases x; rfl

/-- C3 counterexample: a create request whose two role entries both carry
device id `d1` (exactly what the create service builds when master = slave)
is accepted by `add_group` — the record is persisted with the same device
named twice, so "two distinct member devices" is not enforced and the
duplicate create does not fail. -/
theorem c3_counterexample :
    rolesPathDeviceIds dupReqTree = ["d1", "d1"]
    ∧ add_group devsTwoST10 [5] [] (some dupReqTree)
        = some (pretty_xml (dupReqTree.setAttr "id" "0000005"),
            [(groupFilename "0000005",
              ⟨pretty_xml (dupReqTree.setAttr "id" "0000005"),
               some (dupReqTree.setAttr "id" "0000005")⟩)]) :=
  ⟨by decide, rfl⟩

/-- C3 (amended): every group record persisted by the create flow carries
exactly two role-entry device ids — but their distinctness is not checked:
a create whose two role entries carry the same device id succeeds and writes
a record naming that device twice (see the counterexample). -/
theorem c3_persisted_records_have_two_roles (devices : Devices) (draws : List Nat)
    (store : Store) (req : Option Xml) (msg : String) (store' : Store)
    (hadd : add_group devices draws store req = some (msg, store'))
    (hwrite : store' ≠ store) :
    ∃ gid root', store' = setFile store (groupFilename gid)
        ⟨pretty_xml root', some root'⟩
      ∧ (rolesPathDeviceIds root').length = 2 := by
  unfold add_group at hadd
  cases hgen : generate_group_id store draws with
  | none => rw [hgen] at hadd; cases hadd
  | some gid =>
    rw [hgen] at hadd
    dsimp only at hadd
    by_cases hex : (lookupFile store (groupFilename gid)).isSome
    · rw [if_pos hex] at hadd
      injection hadd with h'
      exact absurd (congrArg Prod.snd h').symm hwrite
    · rw [if_neg hex] at hadd
      cases hv : validate_group_xml req with
      | error e =>
        simp only [hv] at hadd
        injection hadd with h'
        exact absurd (congrArg Prod.snd h').symm hwrite
      | ok root =>
        simp only [hv] at hadd
        by_cases hlen : (rolesPathDeviceIds root).length ≠ 2
        · rw [if_pos hlen] at hadd
          injection hadd with h'
          exact absurd (congrArg Prod.snd h').symm hwrite
        · rw [if_neg hlen] at hadd
          cases hg : firstGrouped store (rolesPathDeviceIds root) with
          | some dg =>
            simp only [hg] at hadd
            injection hadd with h'
            exact absurd (congrArg Prod.snd h').symm hwrite
          | none =>
            simp only [hg] at hadd
            cases hb : firstBadType devices (rolesPathDeviceIds root) with
            | some d =>
              simp only [hb] at hadd
              injection hadd with h'
              exact absurd (congrArg Prod.snd h').symm hwrite
            | none =>
              simp only [hb] at hadd
              injection hadd with h'
              refine ⟨gid, root.setAttr "id" gid, (congrArg Prod.snd h').symm, ?_⟩
              rw [rolesPathDeviceIds_setAttr]
              omega

/-- Witness for the amended C3 on a concrete successful create. -/
theorem c3_witness :
    add_group devsTwoST10 [5] [] (some dupReqTree)
        = some (pretty_xml (dupReqTree.setAttr "id" "0000005"),
            [(groupFilename "0000005",
              ⟨pretty_xml (dupReqTree.setAttr "id" "0000005"),
               some (dupReqTree.setAttr "id" "0000005")⟩)])
    ∧ ∃ gid root',
        ([(groupFilename "0000005",
           (⟨pretty_xml (dupReqTree.setAttr "id" "0000005"),
             some (dupReqTree.setAttr "id" "0000005")⟩ : StoredFile))] : Store)
          = setFile [] (groupFilename gid) ⟨pretty_xml root', some root'⟩
        ∧ (rolesPathDeviceIds root').length = 2 :=
  ⟨rfl,
   c3_persisted_records_have_two_roles devsTwoST10 [5] []
     (some dupReqTree) (pretty_xml (dupReqTree.setAttr "id" "0000005")) _ rfl
     (by intro h; cases h)⟩

/-! ## Claim C1 -/

theorem pyStartsWith_append_left {p a : String} (h : pyStartsWith a p = true)
    (b : String) : pyStartsWith (a ++ b) p = true := by
  unfold pyStartsWith at h ⊢
  rw [String.data_append, decide_eq_true_eq]
  rw [decide_eq_true_eq] at h
  exact h.trans (List.prefix_append _ _)

/-- C1: for every remove-group request that resolves to a stored group (the
account therefore exists — its directory holds the record — so
`accountOk = true`), the local record is deleted if and only if the single
`removeGroup` box call returns HTTP 200 with a body that
`_is_group_empty_xml` accepts (the literal `<group/>` marker modulo spaces,
or a parsed document whose root is a childless `group` element): on that
outcome the service deletes exactly the record file and answers `GROUP_OK`;
on every other remote outcome (exception, non-200 status, or non-empty-group
body) the directory — hence the record file, byte for byte — is unchanged
and an `<error>` document with status 500 is returned. -/
theorem c1_removegroup_delete_iff_remote_empty (parse : String → Option Xml)
    (account : String) (store : Store) (groupid name : Option String)
    (gid : String) (file : StoredFile) (root : Xml) (remote : RemoteOutcome)
    (hone : ¬ (((optStripNone groupid).isNone ∧ (optStripNone name).isNone)
        ∨ ((optStripNone groupid).isSome ∧ (optStripNone name).isSome)))
    (hres : resolve_gid store (optStripNone groupid) (optStripNone name) = some gid)
    (hfile : lookupFile store (groupFilename gid) = some file)
    (hparsed : file.parsed = some root)
    (hip : extract_master_ip root ≠ "") :
    (∀ status text, remote = .resp status text → status = 200 →
        is_group_empty_xml parse text = true →
      service_removegroup parse account true store groupid name remote
        = ⟨⟨"<status>GROUP_OK</status>", 200⟩, removeFile store (groupFilename gid),
           [⟨extract_master_ip root, "/removeGroup", none⟩]⟩)
    ∧ ((∀ status text, remote = .resp status text →
          status ≠ 200 ∨ is_group_empty_xml parse text = false) →
      (service_removegroup parse account true store groupid name remote).store = store
      ∧ (service_removegroup parse account true store groupid name remote).resp.status
          = 500
      ∧ pyStartsWith (service_removegroup parse account true store groupid name
          remote).resp.content "<error>" = true) := by
  have hred : service_removegroup parse account true store groupid name remote
      = match remote with
        | .exn e =>
          ⟨⟨"<error>removeGroup request failed: " ++ e ++ "</error>", 500⟩, store,
            [⟨extract_master_ip root, "/removeGroup", none⟩]⟩
        | .resp status text =>
          if status ≠ 200 ∨ ¬ is_group_empty_xml parse text then
            ⟨⟨"<error>removeGroup failed on " ++ extract_master_ip root ++ ": HTTP " ++
                toString status ++ " " ++ text ++ "</error>", 500⟩, store,
              [⟨extract_master_ip root, "/removeGroup", none⟩]⟩
          else
            let dr := delete_group_endpoint account true store gid
            if 300 ≤ dr.1.status then
              ⟨⟨"<error>Removed on box, but datastore delete failed</error>", 500⟩,
                dr.2, [⟨extract_master_ip root, "/removeGroup", none⟩]⟩
            else ⟨xml_status true, dr.2,
              [⟨extract_master_ip root, "/removeGroup", none⟩]⟩ := by
    simp only [service_removegroup]
    rw [if_neg hone]
    simp only [hres, hfile, hparsed]
    rw [if_neg hip]
  constructor
  · intro status text hrem h200 hempty
    subst hrem
    rw [hred]
    dsimp only
    rw [if_neg (by rw [h200, hempty]; simp)]
    have hdel : delete_group_endpoint account true store gid
        = (⟨"<status>Group " ++ gid ++ " deleted successfully</status>", 200⟩,
           removeFile store (groupFilename gid)) := by
      simp only [delete_group_endpoint, delete_group, hfile]
      simp
    simp [hdel, xml_status]
  · intro hfail
    rw [hred]
    cases remote with
    | exn e =>
      refine ⟨rfl, rfl, ?_⟩
      exact pyStartsWith_append_left
        (pyStartsWith_append_left (by decide) e) "</error>"
    | resp status text =>
      have hcond : status ≠ 200 ∨ ¬ is_group_empty_xml parse text := by
        rcases hfail status text rfl with h | h
        · exact Or.inl h
        · exact Or.inr (by simp [h])
      dsimp only
      rw [if_pos hcond]
      refine ⟨rfl, rfl, ?_⟩
      exact pyStartsWith_append_left
        (pyStartsWith_append_left
          (pyStartsWith_append_left
            (pyStartsWith_append_left
              (pyStartsWith_append_left
                (pyStartsWith_append_left (by decide) (extract_master_ip root))
                ": HTTP ")
              (toString status))
            " ")
          text)
        "</error>"

/-- Witness for C1: on a concrete store, a 200/`<group/>` remote outcome
deletes exactly the stored record. -/
theorem c1_witness :
    ¬ (((optStripNone (some "0000007")).isNone ∧ (optStripNone none).isNone)
        ∨ ((optStripNone (some "0000007")).isSome ∧ (optStripNone none).isSome))
    ∧ resolve_gid storeOne (optStripNone (some "0000007")) (optStripNone none)
        = some "0000007"
    ∧ lookupFile storeOne (groupFilename "0000007")
        = some ⟨pretty_xml groupRootD1D2, some groupRootD1D2⟩
    ∧ extract_master_ip groupRootD1D2 ≠ ""
    ∧ is_group_empty_xml (fun _ => none) "<group/>" = true
    ∧ service_removegroup (fun _ => none) "acct" true storeOne (some "0000007") none
        (RemoteOutcome.resp 200 "<group/>")
      = ⟨⟨"<status>GROUP_OK</status>", 200⟩,
         removeFile storeOne (groupFilename "0000007"),
         [⟨extract_master_ip groupRootD1D2, "/removeGroup", none⟩]⟩ :=
  ⟨by decide, by decide, rfl, by decide, by decide,
   (c1_removegroup_delete_iff_remote_empty (fun _ => none) "acct" storeOne
      (some "0000007") none "0000007" ⟨pretty_xml groupRootD1D2, some groupRootD1D2⟩
      groupRootD1D2 (RemoteOutcome.resp 200 "<group/>") (by decide) (by decide) rfl rfl
      (by decide)).1 200 "<group/>" rfl rfl (by decide)⟩

/-! ## Claims C4 and C2: create-flow lemmas -/

theorem tag_setAttr (x : Xml) (k v : String) : (x.setAttr k v).tag = x.tag := by
  cases x; rfl

theorem validate_ok_eq {req : Option Xml} {root : Xml}
    (h : validate_group_xml req = .ok root) : req = some root := by
  unfold validate_group_xml at h
  repeat' split at h
  all_goals first
    | (injection h with h'; subst h'; rfl)
    | injection h

theorem validate_error_head {req : Option Xml} {e : String}
    (h : validate_group_xml req = .error e) :
    pyStartsWith (pyLStrip e) "<?xml" = false := by
  unfold validate_group_xml at h
  repeat' split at h
  all_goals first
    | (injection h with h'; subst h'; decide)
    | injection h

theorem add_group_success_shape (devices : Devices) (draws : List Nat) (store : Store)
    (tree : Xml) (msg : String) (store' : Store)
    (hadd : add_group devices draws store (some tree) = some (msg, store'))
    (hxml : pyStartsWith (pyLStrip msg) "<?xml" = true) :
    ∃ gid, generate_group_id store draws = some gid
      ∧ msg = pretty_xml (tree.setAttr "id" gid)
      ∧ store' = setFile store (groupFilename gid) ⟨msg, some (tree.setAttr "id" gid)⟩ := by
  unfold add_group at hadd
  cases hgen : generate_group_id store draws with
  | none => rw [hgen] at hadd; cases hadd
  | some gid =>
    rw [hgen] at hadd
    dsimp only at hadd
    by_cases hex : (lookupFile store (groupFilename gid)).isSome
    · rw [if_pos hex] at hadd
      injection hadd with h'
      rw [Prod.mk.injEq] at h'
      rw [← h'.1, not_startsWith_decl (s := "Group already exists") rfl (by decide)
        (by decide)] at hxml
      cases hxml
    · rw [if_neg hex] at hadd
      cases hv : validate_group_xml (some tree) with
      | error e =>
        simp only [hv] at hadd
        injection hadd with h'
        rw [Prod.mk.injEq] at h'
        rw [← h'.1, validate_error_head hv] at hxml
        cases hxml
      | ok root =>
        have hroot : root = tree := by
          have h2 := validate_ok_eq hv
          injection h2 with h3
          exact h3.symm
        subst hroot
        simp only [hv] at hadd
        by_cases hlen : (rolesPathDeviceIds root).length ≠ 2
        · rw [if_pos hlen] at hadd
          injection hadd with h'
          rw [Prod.mk.injEq] at h'
          rw [← h'.1, not_startsWith_decl
            (s := "Group must contain exactly two deviceId entries") rfl (by decide)
            (by decide)] at hxml
          cases hxml
        · rw [if_neg hlen] at hadd
          cases hg : firstGrouped store (rolesPathDeviceIds root) with
          | some dg =>
            simp only [hg] at hadd
            injection hadd with h'
            rw [Prod.mk.injEq] at h'
            have hd : ("Device " ++ dg.1 ++ " is already part of group " ++
                dg.2).data.head? = some 'D' :=
              device_msg_head dg.1 (" is already part of group " ++ dg.2)
            rw [← h'.1, not_startsWith_decl hd (by decide) (by decide)] at hxml
            cases hxml
          | none =>
            simp only [hg] at hadd
            cases hb : firstBadType devices (rolesPathDeviceIds root) with
            | some d =>
              simp only [hb] at hadd
              injection hadd with h'
              rw [Prod.mk.injEq] at h'
              rw [← h'.1, not_startsWith_decl
                (device_msg_head d " is not of type 'SoundTouch 10'") (by decide)
                (by decide)] at hxml
              cases hxml
            | none =>
              simp only [hb] at hadd
              injection hadd with h'
              rw [Prod.mk.injEq] at h'
              obtain ⟨h1, h2⟩ := h'
              subst h1
              subst h2
              exact ⟨gid, rfl, rfl, rfl⟩

theorem add_group_endpoint_of_add (account : String) (devices : Devices)
    (draws : List Nat) (store : Store) (tree : Xml) (msg : String) (store' : Store)
    (htag : tree.tag = "group")
    (hadd : add_group devices draws store (some tree) = some (msg, store')) :
    add_group_endpoint account true devices draws store (some tree)
      = some (if pyStartsWith (pyLStrip msg) "<?xml" then (⟨msg, 200⟩, store')
          else (⟨"<error>" ++ msg ++ "</error>", 400⟩, store')) := by
  simp only [add_group_endpoint, Bool.not_true, not_true_eq_false, if_false]
  rw [if_neg (by rw [htag]; simp), hadd]
  by_cases hx : pyStartsWith (pyLStrip msg) "<?xml"
  · simp [hx]
  · simp [hx]

theorem xml_status_ok_iff (ok : Bool) :
    xml_status ok = ⟨"<status>GROUP_OK</status>", 200⟩ ↔ ok = true := by
  cases ok <;> simp [xml_status]

theorem create_call_ok_iff (r : RemoteOutcome) :
    create_call_ok r = true
      ↔ ∃ t, r = .resp 200 t ∧ pyContains t "GROUP_OK" = true := by
  cases r with
  | exn e => simp [create_call_ok]
  | resp status text =>
    simp only [create_call_ok, Bool.and_eq_true, beq_iff_eq]
    constructor
    · rintro ⟨h1, h2⟩
      exact ⟨text, by rw [h1], h2⟩
    · rintro ⟨t, ht, h2⟩
      injection ht with h3 h4
      exact ⟨h3, by rw [h4]; exact h2⟩

theorem update_call_ok_iff (r : RemoteOutcome) :
    update_call_ok r = true ↔ ∃ t, r = .resp 200 t := by
  cases r with
  | exn e => simp [update_call_ok]
  | resp status text =>
    simp only [update_call_ok, beq_iff_eq]
    constructor
    · intro h1
      exact ⟨text, by rw [h1]⟩
    · rintro ⟨t, ht⟩
      injection ht with h3 h4

theorem service_creategroup_reduce (account : String) (accountOk : Bool)
    (devices : Devices) (draws : List Nat) (store : Store)
    (master slave : Option String) (mi si : DeviceInfoM) (r1 r2 : RemoteOutcome)
    (hm : pyStrip (master.getD "") ≠ "") (hs : pyStrip (slave.getD "") ≠ "") :
    service_creategroup account accountOk devices draws store master slave
        (.ok mi) (.ok si) r1 r2
      = match add_group_endpoint account accountOk devices draws store
          (some (build_group_payload_no_id (mi.name ++ " + " ++ si.name)
            (pyStrip (master.getD "")) mi.ip_address
            (pyStrip (slave.getD "")) si.ip_address)) with
        | none => none
        | some rs =>
          if pyContains (pyStrip rs.1.content) "<error"
              ∧ ¬ pyContains (pyStrip rs.1.content) "<group" then
            some ⟨⟨pyStrip rs.1.content, 409⟩, rs.2, []⟩
          else
            some ⟨xml_status (create_agg [r1, r2]), rs.2,
              [⟨mi.ip_address, "/addGroup", some (pyStrip rs.1.content)⟩,
               ⟨si.ip_address, "/addGroup", some (pyStrip rs.1.content)⟩]⟩ := by
  simp only [service_creategroup]
  rw [if_neg (not_or.mpr ⟨hm, hs⟩)]
  cases hep : add_group_endpoint account accountOk devices draws store
      (some (build_group_payload_no_id (mi.name ++ " + " ++ si.name)
        (pyStrip (master.getD "")) mi.ip_address
        (pyStrip (slave.getD "")) si.ip_address)) with
  | none => rfl
  | some rs => rfl

/-- C4: for every create request whose local create sub-flow succeeds (the
reused add endpoint returned the persisted `<?xml` document), the service
issues the two concurrent `addGroup` box calls and answers
`_xml_status(create_agg ...)`, which is the success document exactly when
both gathered results are HTTP 200 responses whose bodies contain the
`GROUP_OK` marker; an exception, non-200 status, or missing marker on either
call yields the failure document. -/
theorem c4_create_success_iff_remote_ok (account : String) (devices : Devices)
    (draws : List Nat) (store : Store) (master slave : Option String)
    (mi si : DeviceInfoM) (r1 r2 : RemoteOutcome) (msg : String) (store' : Store)
    (hm : pyStrip (master.getD "") ≠ "") (hs : pyStrip (slave.getD "") ≠ "")
    (hadd : add_group devices draws store
        (some (build_group_payload_no_id (mi.name ++ " + " ++ si.name)
          (pyStrip (master.getD "")) mi.ip_address
          (pyStrip (slave.getD "")) si.ip_address)) = some (msg, store'))
    (hxml : pyStartsWith (pyLStrip msg) "<?xml" = true) :
    service_creategroup account true devices draws store master slave
        (.ok mi) (.ok si) r1 r2
      = some ⟨xml_status (create_agg [r1, r2]), store',
          [⟨mi.ip_address, "/addGroup", some msg⟩,
           ⟨si.ip_address, "/addGroup", some msg⟩]⟩
    ∧ (xml_status (create_agg [r1, r2]) = ⟨"<status>GROUP_OK</status>", 200⟩
        ↔ ((∃ t, r1 = .resp 200 t ∧ pyContains t "GROUP_OK" = true)
           ∧ ∃ t, r2 = .resp 200 t ∧ pyContains t "GROUP_OK" = true)) := by
  obtain ⟨gid, hgen, hmsg, hstore⟩ :=
    add_group_success_shape devices draws store _ msg store' hadd hxml
  constructor
  · rw [service_creategroup_reduce account true devices draws store master slave
      mi si r1 r2 hm hs]
    rw [add_group_endpoint_of_add account devices draws store
      (build_group_payload_no_id (mi.name ++ " + " ++ si.name)
        (pyStrip (master.getD "")) mi.ip_address
        (pyStrip (slave.getD "")) si.ip_address) msg store' rfl hadd]
    rw [if_pos hxml]
    dsimp only
    have hstrip : pyStrip msg = msg := by rw [hmsg]; exact pyStrip_pretty_xml _
    have hgr : pyContains (pyStrip msg) "<group" = true := by
      rw [hmsg]
      exact pretty_xml_contains_group (by rw [tag_setAttr]; rfl)
    rw [if_neg (fun hcon => hcon.2 hgr)]
    rw [hstrip]
  · rw [xml_status_ok_iff]
    unfold create_agg
    simp only [List.all_cons, List.all_nil, Bool.and_true, Bool.and_eq_true]
    rw [create_call_ok_iff, create_call_ok_iff]

/-- Witness for C4: a concrete successful create with both boxes answering
HTTP 200 plus the marker. -/
theorem c4_witness :
    pyStrip ((some "d1").getD "") ≠ ""
    ∧ service_creategroup "acct" true devsTwoST10 [5] [] (some "d1") (some "d2")
        (.ok ⟨"M", "10.0.0.5"⟩) (.ok ⟨"S", "10.0.0.6"⟩)
        (.resp 200 "GROUP_OK") (.resp 200 "GROUP_OK")
      = some ⟨xml_status (create_agg [.resp 200 "GROUP_OK", .resp 200 "GROUP_OK"]),
          [(groupFilename "0000005",
            ⟨pretty_xml ((build_group_payload_no_id "M + S" "d1" "10.0.0.5" "d2"
                "10.0.0.6").setAttr "id" "0000005"),
             some ((build_group_payload_no_id "M + S" "d1" "10.0.0.5" "d2"
                "10.0.0.6").setAttr "id" "0000005")⟩)],
          [⟨"10.0.0.5", "/addGroup",
            some (pretty_xml ((build_group_payload_no_id "M + S" "d1" "10.0.0.5" "d2"
              "10.0.0.6").setAttr "id" "0000005"))⟩,
           ⟨"10.0.0.6", "/addGroup",
            some (pretty_xml ((build_group_payload_no_id "M + S" "d1" "10.0.0.5" "d2"
              "10.0.0.6").setAttr "id" "0000005"))⟩]⟩
    ∧ xml_status (create_agg [.resp 200 "GROUP_OK", .resp 200 "GROUP_OK"])
        = ⟨"<status>GROUP_OK</status>", 200⟩ :=
  ⟨by decide,
   (c4_create_success_iff_remote_ok "acct" devsTwoST10 [5] [] (some "d1") (some "d2")
      ⟨"M", "10.0.0.5"⟩ ⟨"S", "10.0.0.6"⟩ (.resp 200 "GROUP_OK") (.resp 200 "GROUP_OK")
      (pretty_xml ((build_group_payload_no_id "M + S" "d1" "10.0.0.5" "d2"
        "10.0.0.6").setAttr "id" "0000005"))
      [(groupFilename "0000005",
        ⟨pretty_xml ((build_group_payload_no_id "M + S" "d1" "10.0.0.5" "d2"
            "10.0.0.6").setAttr "id" "0000005"),
         some ((build_group_payload_no_id "M + S" "d1" "10.0.0.5" "d2"
            "10.0.0.6").setAttr "id" "0000005")⟩)]
      (by decide) (by decide) rfl (pretty_xml_startsWith_decl _)).1,
   by decide⟩

/-- C2 counterexample: a create request naming master device id `<group`
(while a stored record already lists that device) makes the local create
sub-flow fail with a membership conflict — no record is written and the
store is unchanged — yet the orchestrator does not return: because the
wrapped error text contains the substring `<group`, the guard
`"<error" in xml_with_id and "<group" not in xml_with_id` misses it, and the
two `addGroup` box calls are issued (with the error document as payload). -/
theorem c2_counterexample :
    add_group devsTwoST10 [2] storeLtGroup
        (some (build_group_payload_no_id "M + S" "<group" "10.0.0.5" "d2" "10.0.0.6"))
      = some ("Device <group is already part of group 0000001", storeLtGroup)
    ∧ service_creategroup "acct" true devsTwoST10 [2] storeLtGroup
        (some "<group") (some "d2") (.ok ⟨"M", "10.0.0.5"⟩) (.ok ⟨"S", "10.0.0.6"⟩)
        (.exn "boom") (.exn "boom")
      = some ⟨⟨"<status>GROUP_ERROR</status>", 500⟩, storeLtGroup,
          [⟨"10.0.0.5", "/addGroup",
            some "<error>Device <group is already part of group 0000001</error>"⟩,
           ⟨"10.0.0.6", "/addGroup",
            some "<error>Device <group is already part of group 0000001</error>"⟩]⟩ :=
  ⟨rfl, rfl⟩

/-- C2 (amended): for every create request whose local create sub-flow fails
and whose wrapped error document does not contain the substring `<group`
(which covers every ordinary device id; see the counterexample for the
exception), the orchestrator returns the error document with status 409
immediately and no `addGroup` box call is issued. -/
theorem c2_local_failure_no_remote_calls (account : String) (devices : Devices)
    (draws : List Nat) (store : Store) (master slave : Option String)
    (mi si : DeviceInfoM) (r1 r2 : RemoteOutcome) (msg : String) (store₂ : Store)
    (hm : pyStrip (master.getD "") ≠ "") (hs : pyStrip (slave.getD "") ≠ "")
    (hadd : add_group devices draws store
        (some (build_group_payload_no_id (mi.name ++ " + " ++ si.name)
          (pyStrip (master.getD "")) mi.ip_address
          (pyStrip (slave.getD "")) si.ip_address)) = some (msg, store₂))
    (hfail : pyStartsWith (pyLStrip msg) "<?xml" = false)
    (hnog : pyContains ("<error>" ++ msg ++ "</error>") "<group" = false) :
    service_creategroup account true devices draws store master slave
        (.ok mi) (.ok si) r1 r2
      = some ⟨⟨"<error>" ++ msg ++ "</error>", 409⟩, store₂, []⟩ := by
  rw [service_creategroup_reduce account true devices draws store master slave
    mi si r1 r2 hm hs]
  rw [add_group_endpoint_of_add account devices draws store
    (build_group_payload_no_id (mi.name ++ " + " ++ si.name)
      (pyStrip (master.getD "")) mi.ip_address
      (pyStrip (slave.getD "")) si.ip_address) msg store₂ rfl hadd]
  rw [if_neg (by simp [hfail])]
  dsimp only
  rw [pyStrip_errWrap]
  rw [if_pos ⟨errWrap_contains_error msg, by simp [hnog]⟩]

/-- Witness for the amended C2: an ordinary conflicting create returns 409
and issues no box call. -/
theorem c2_witness :
    add_group devsTwoST10 [2] storeOne
        (some (build_group_payload_no_id "M + S" "d1" "10.0.0.5" "d2" "10.0.0.6"))
      = some ("Device d1 is already part of group 0000007", storeOne)
    ∧ pyStartsWith (pyLStrip "Device d1 is already part of group 0000007") "<?xml"
        = false
    ∧ pyContains
        ("<error>" ++ "Device d1 is already part of group 0000007" ++ "</error>")
        "<group" = false
    ∧ service_creategroup "acct" true devsTwoST10 [2] storeOne (some "d1")
        (some "d2") (.ok ⟨"M", "10.0.0.5"⟩) (.ok ⟨"S", "10.0.0.6"⟩)
        (.exn "boom") (.exn "boom")
      = some ⟨⟨"<error>" ++ "Device d1 is already part of group 0000007" ++
            "</error>", 409⟩, storeOne, []⟩ :=
  ⟨rfl, by decide, by decide,
   c2_local_failure_no_remote_calls "acct" devsTwoST10 [2] storeOne (some "d1")
     (some "d2") ⟨"M", "10.0.0.5"⟩ ⟨"S", "10.0.0.6"⟩ (.exn "boom") (.exn "boom")
     "Device d1 is already part of group 0000007" storeOne (by decide) (by decide)
     rfl (by decide) (by decide)⟩

/-! ## Claim C5 -/

theorem tag_renameTree (nn : String) (root : Xml) :
    (renameTree nn root).tag = root.tag := by
  cases root; rfl

theorem update_call_ok_eq_status (r : RemoteOutcome) :
    update_call_ok r = (outcomeStatus r == some 200) := by
  cases r with
  | exn e => rfl
  | resp status text => rfl

theorem all_update_eq_statuses :
    ∀ l : List RemoteOutcome,
      l.all update_call_ok = (l.map outcomeStatus).all (fun s => s == some 200)
  | [] => rfl
  | r :: rs => by
    simp only [List.all_cons, List.map_cons, update_call_ok_eq_status r,
      all_update_eq_statuses rs]

theorem update_agg_statuses (rs rs₂ : List RemoteOutcome)
    (h : rs.map outcomeStatus = rs₂.map outcomeStatus) :
    update_agg rs = update_agg rs₂ := by
  unfold update_agg
  rw [all_update_eq_statuses, all_update_eq_statuses, h]

/-- C5: for every rename request whose local rename succeeds, the service
fans `updateGroup` out to the two recorded addresses and answers
`_xml_status(update_agg ...)`, which is the success document exactly when
every gathered result is an HTTP 200 response without a raised exception;
the response body text is never examined — outcomes with identical status
components (exceptions included) yield the identical service result, so the
create flow's success-marker check is not applied here. -/
theorem c5_rename_success_iff_all_200 (account : String) (store : Store)
    (newname groupid name : Option String) (remote : List RemoteOutcome)
    (gid m : String) (file : StoredFile) (root : Xml)
    (hnn : pyStrip (newname.getD "") ≠ "")
    (hone : ¬ (((optStripNone groupid).isNone ∧ (optStripNone name).isNone)
        ∨ ((optStripNone groupid).isSome ∧ (optStripNone name).isSome)))
    (hres : resolve_gid store (optStripNone groupid) (optStripNone name) = some gid)
    (hfile : lookupFile store (groupFilename gid) = some file)
    (hparsed : file.parsed = some root)
    (hmaster : root.findtext "masterDeviceId" = some m)
    (hm1 : m ≠ "") (hm2 : pyStrip m = m) (htag : root.tag = "group")
    (hips : (extract_group_ips root).length = 2) :
    service_modgroup account true store newname groupid name remote
      = ⟨xml_status (update_agg remote),
         setFile store (groupFilename gid)
           ⟨pretty_xml (renameTree (pyStrip (newname.getD "")) root),
            some (renameTree (pyStrip (newname.getD "")) root)⟩,
         (extract_group_ips root).map (fun ip => ⟨ip, "/updateGroup",
           some (pretty_xml (renameTree (pyStrip (newname.getD "")) root))⟩)⟩
    ∧ (xml_status (update_agg remote) = ⟨"<status>GROUP_OK</status>", 200⟩
        ↔ ∀ r ∈ remote, ∃ t, r = .resp 200 t)
    ∧ ∀ remote₂ : List RemoteOutcome,
        remote.map outcomeStatus = remote₂.map outcomeStatus →
        service_modgroup account true store newname groupid name remote
          = service_modgroup account true store newname groupid name remote₂ := by
  have hext : extract_master_device_id root = m := by
    unfold extract_master_device_id
    rw [hmaster]
    simpa using hm2
  have hmod : modify_group account store gid (pyStrip (newname.getD "")) m
      = (pretty_xml (renameTree (pyStrip (newname.getD "")) root),
         setFile store (groupFilename gid)
           ⟨pretty_xml (renameTree (pyStrip (newname.getD "")) root),
            some (renameTree (pyStrip (newname.getD "")) root)⟩) := by
    simp only [modify_group, hfile, hparsed, hmaster]
    simp [hm1]
  have hep : mod_group_endpoint account true store gid
      (some (Xml.elem "group" [] none
        [Xml.elem "name" [] (some (pyStrip (newname.getD ""))) [],
         Xml.elem "masterDeviceId" [] (some m) []]))
      = (⟨pretty_xml (renameTree (pyStrip (newname.getD "")) root), 200⟩,
         setFile store (groupFilename gid)
           ⟨pretty_xml (renameTree (pyStrip (newname.getD "")) root),
            some (renameTree (pyStrip (newname.getD "")) root)⟩) := by
    have hf1 : (Xml.elem "group" [] none
        [Xml.elem "name" [] (some (pyStrip (newname.getD ""))) [],
         Xml.elem "masterDeviceId" [] (some m) []]).findChild "name"
        = some (Xml.elem "name" [] (some (pyStrip (newname.getD ""))) []) := rfl
    have hf2 : (Xml.elem "group" [] none
        [Xml.elem "name" [] (some (pyStrip (newname.getD ""))) [],
         Xml.elem "masterDeviceId" [] (some m) []]).findChild "masterDeviceId"
        = some (Xml.elem "masterDeviceId" [] (some m) []) := rfl
    simp [mod_group_endpoint, hf1, hf2, Xml.tag, Xml.text, hnn, hm1, hmod,
      pretty_xml_startsWith_decl]
  have htag' : (renameTree (pyStrip (newname.getD "")) root).tag = "group" := by
    rw [tag_renameTree]; exact htag
  have hgroup := pretty_xml_contains_group htag'
  rw [pyStrip_pretty_xml] at hgroup
  have hred : service_modgroup account true store newname groupid name remote
      = ⟨xml_status (update_agg remote),
         setFile store (groupFilename gid)
           ⟨pretty_xml (renameTree (pyStrip (newname.getD "")) root),
            some (renameTree (pyStrip (newname.getD "")) root)⟩,
         (extract_group_ips root).map (fun ip => ⟨ip, "/updateGroup",
           some (pretty_xml (renameTree (pyStrip (newname.getD "")) root))⟩)⟩ := by
    simp only [service_modgroup]
    rw [if_neg hnn, if_neg hone]
    simp only [hres, hfile, hparsed]
    rw [hext]
    rw [if_neg hm1]
    rw [if_neg (by rw [hips]; omega)]
    rw [hep]
    dsimp only
    rw [pyStrip_pretty_xml]
    rw [if_neg (fun hcon => hcon.2 hgroup)]
  refine ⟨hred, ?_, ?_⟩
  · rw [xml_status_ok_iff]
    unfold update_agg
    rw [List.all_eq_true]
    constructor
    · intro h r hr
      exact (update_call_ok_iff r).mp (h r hr)
    · intro h r hr
      exact (update_call_ok_iff r).mpr (h r hr)
  · intro remote₂ hsame
    rw [hred]
    have hred₂ : service_modgroup account true store newname groupid name remote₂
        = ⟨xml_status (update_agg remote₂),
           setFile store (groupFilename gid)
             ⟨pretty_xml (renameTree (pyStrip (newname.getD "")) root),
              some (renameTree (pyStrip (newname.getD "")) root)⟩,
           (extract_group_ips root).map (fun ip => ⟨ip, "/updateGroup",
             some (pretty_xml (renameTree (pyStrip (newname.getD "")) root))⟩)⟩ := by
      simp only [service_modgroup]
      rw [if_neg hnn, if_neg hone]
      simp only [hres, hfile, hparsed]
      rw [hext]
      rw [if_neg hm1]
      rw [if_neg (by rw [hips]; omega)]
      rw [hep]
      dsimp only
      rw [pyStrip_pretty_xml]
      rw [if_neg (fun hcon => hcon.2 hgroup)]
    rw [hred₂, update_agg_statuses remote remote₂ hsame]

/-- Witness for C5 on a concrete store, with both boxes answering 200 and
arbitrary body texts. -/
theorem c5_witness :
    pyStrip ((some "New Name").getD "") ≠ ""
    ∧ lookupFile storeOne (groupFilename "0000007")
        = some ⟨pretty_xml groupRootD1D2, some groupRootD1D2⟩
    ∧ groupRootD1D2.findtext "masterDeviceId" = some "d1"
    ∧ (extract_group_ips groupRootD1D2).length = 2
    ∧ service_modgroup "acct" true storeOne (some "New Name") (some "0000007") none
        [.resp 200 "a", .resp 200 "b"]
      = ⟨xml_status (update_agg [.resp 200 "a", .resp 200 "b"]),
         setFile storeOne (groupFilename "0000007")
           ⟨pretty_xml (renameTree (pyStrip ((some "New Name").getD "")) groupRootD1D2),
            some (renameTree (pyStrip ((some "New Name").getD "")) groupRootD1D2)⟩,
         (extract_group_ips groupRootD1D2).map (fun ip => ⟨ip, "/updateGroup",
           some (pretty_xml (renameTree (pyStrip ((some "New Name").getD ""))
             groupRootD1D2))⟩)⟩
    ∧ xml_status (update_agg [.resp 200 "a", .resp 200 "b"])
        = ⟨"<status>GROUP_OK</status>", 200⟩ :=
  ⟨by decide, rfl, rfl, by decide,
   (c5_rename_success_iff_all_200 "acct" storeOne (some "New Name") (some "0000007")
     none [.resp 200 "a", .resp 200 "b"] "0000007" "d1"
     ⟨pretty_xml groupRootD1D2, some groupRootD1D2⟩ groupRootD1D2 (by decide)
     (by decide) (by decide) rfl rfl rfl (by decide) (by decide) rfl (by decide)).1,
   by decide⟩
